import Mathlib

/-!
Verification of the Auto Scaling query-API client binding
(`boto/ec2/autoscale/__init__.py`) against its natural-language
specification.

The embedding models:
  * the wire parameter mapping (`Params`) as an insertion-ordered
    association list with Python-dict assignment semantics (`pset`) and
    lookup (`plookup`);
  * parameter values (`PVal`) as the tagged values the module stores in
    the mapping (strings, ints, booleans);
  * the "indexed member" list encoder `build_list_params`, which walks
    the item list with a 1-based index exactly as the source loop
    `for i in xrange(1, len(items)+1)` does, dispatching on whether
    `items[i-1]` is a dict, a string, or neither;
  * every parameter-building operation of `AutoScaleConnection` as a
    function from its (typed) inputs to an `OpCall` holding the wire
    action name, the encoded parameter mapping, and the response shape
    it requests from the transport layer (`get_object` / `get_list` /
    `get_status`).

Python `'%d' % i` decimal formatting is modelled by `decRepr`, a
fuel-structural decimal printer; Python truthiness of the optional
arguments (`if x:`) is modelled per type by `truthyOptInt`,
`truthyOptStr`, `truthyList` and `Bool` itself.
-/

/-- A value stored in the wire parameter mapping.  The source stores
strings, integers and booleans in the `params` dict (the transport
stringifies them later). -/
inductive PVal where
  | s (v : String)
  | i (v : Int)
  | b (v : Bool)
deriving DecidableEq

/-- The wire parameter mapping: insertion-ordered key/value pairs,
modelling the Python `params` dict. -/
abbrev Params := List (String × PVal)

/-- An element of a list handed to `build_list_params`: a string, a
dictionary (field name to value), or anything else (which the encoder
silently skips). -/
inductive Item where
  | str (s : String)
  | dict (d : List (String × PVal))
  | other
deriving DecidableEq

/-- Python dict assignment `p[k] = v`: replace the binding in place if
the key is present, otherwise append it. -/
def pset : Params → String → PVal → Params
  | [], k, v => [(k, v)]
  | (k', v') :: rest, k, v =>
    if k' = k then (k, v) :: rest else (k', v') :: pset rest k v

/-- Python dict lookup `p[k]` (as an `Option`). -/
def plookup : Params → String → Option PVal
  | [], _ => none
  | (k', v) :: rest, k => if k' = k then some v else plookup rest k

/-- Python truthiness of an optional integer argument (`if x:`):
`None` and `0` are falsy. -/
def truthyOptInt : Option Int → Bool
  | none => false
  | some n => n != 0

/-- Python truthiness of an optional string argument (`if x:`):
`None` and `''` are falsy. -/
def truthyOptStr : Option String → Bool
  | none => false
  | some s => s != ""

/-- Python truthiness of a list argument (`if x:`): empty is falsy. -/
def truthyList {α : Type} : List α → Bool
  | [] => false
  | _ => true

/-- Decimal digit character, as produced by `'%d'` formatting. -/
def decDigitChar (n : Nat) : Char :=
  if n = 0 then '0' else if n = 1 then '1' else if n = 2 then '2'
  else if n = 3 then '3' else if n = 4 then '4' else if n = 5 then '5'
  else if n = 6 then '6' else if n = 7 then '7' else if n = 8 then '8'
  else if n = 9 then '9' else '*'

/-- Fuel-driven decimal digit printer (most significant digit first,
accumulator style). -/
def decDigitsCore : Nat → Nat → List Char → List Char
  | 0, _, acc => acc
  | fuel + 1, n, acc =>
    if n < 10 then decDigitChar n :: acc
    else decDigitsCore fuel (n / 10) (decDigitChar (n % 10) :: acc)

/-- Model of Python `'%d' % n`: the decimal representation of `n`. -/
def decRepr (n : Nat) : String := String.mk (decDigitsCore (n + 1) n [])

/-- The indexed member key `'%s.member.%d' % (label, i)`. -/
def memberKey (label : String) (i : Nat) : String :=
  label ++ ".member." ++ decRepr i

/-- One iteration of the `build_list_params` loop body, at 1-based
index `i`, dispatching on the run-time type of `items[i-1]`. -/
def apply_list_item (label : String) (i : Nat) (it : Item) (p : Params) : Params :=
  match it with
  | Item.dict d =>
    d.foldl (fun q kv => pset q (memberKey label i ++ "." ++ kv.1) kv.2) p
  | Item.str s => pset p (memberKey label i) (PVal.s s)
  | Item.other => p

/-- Structural form of the `build_list_params` loop: walk `items` with
the current 1-based index `i`. -/
def build_list_params_from (label : String) (i : Nat) (items : List Item) (p : Params) : Params :=
  match items with
  | [] => p
  | it :: rest => build_list_params_from label (i + 1) rest (apply_list_item label i it p)

/-- `AutoScaleConnection.build_list_params`: for `i` in `1..len(items)`,
encode `items[i-1]` under the indexed member keys. -/
def build_list_params (params : Params) (items : List Item) (label : String) : Params :=
  build_list_params_from label 1 items params

/-- `build_list_params` with the partiality of the list indexing
`items[i-1]` made explicit: each loop iteration looks the item up with
`List.get?` and fails if it were out of range. -/
def build_list_params_checked (params : Params) (items : List Item) (label : String) : Option Params :=
  (List.range' 1 items.length).foldlM
    (fun p i =>
      match items.get? (i - 1) with
      | none => none
      | some it => some (apply_list_item label i it p))
    params

/-- The entries `build_list_params` emits for one item at index `i`. -/
def item_entries (label : String) (i : Nat) : Item → Params
  | Item.str s => [(memberKey label i, PVal.s s)]
  | Item.dict d => d.map (fun kv => (memberKey label i ++ "." ++ kv.1, kv.2))
  | Item.other => []

/-- The entries `build_list_params` emits for a whole item list
starting at index `i`. -/
def list_entries (label : String) (i : Nat) : List Item → Params
  | [] => []
  | it :: rest => item_entries label i it ++ list_entries label (i + 1) rest

/-- `'if x: params[k] = x'` for an optional integer argument. -/
def setOptInt (p : Params) (k : String) (v : Option Int) : Params :=
  if truthyOptInt v then pset p k (PVal.i (v.getD 0)) else p

/-- `'if x: params[k] = x'` for an optional string argument. -/
def setOptStr (p : Params) (k : String) (v : Option String) : Params :=
  if truthyOptStr v then pset p k (PVal.s (v.getD "")) else p

/-- `'if x: self.build_list_params(params, x, label)'`. -/
def setListParams (p : Params) (items : List Item) (label : String) : Params :=
  if truthyList items then build_list_params p items label else p

/-- Python `op.startswith(pre)`. -/
def pyStartsWith (s pre : String) : Bool :=
  List.isPrefixOf pre.data s.data

/-- The three response-decoding shapes an operation can request from
the transport layer: `get_object` (one typed object), `get_list`
(repeated elements matching a tag, each parsed into a type), or
`get_status` (a bare boolean success status). -/
inductive RespShape where
  | obj (ty : String)
  | listOf (tag : String) (ty : String)
  | status
deriving DecidableEq

/-- A fully assembled call handed to the transport collaborator: the
wire action name, the encoded parameter mapping, and the requested
response shape. -/
structure OpCall where
  action : String
  params : Params
  shape : RespShape
deriving DecidableEq

/-- The fields of an `AutoScalingGroup` read by `_update_group`. -/
structure AutoScalingGroup where
  name : String
  launch_config_name : String
  min_size : Int
  max_size : Int
  availability_zones : List String
  desired_capacity : Option Int
  vpc_zone_identifier : Option String
  health_check_period : Option Int
  health_check_type : Option String
  default_cooldown : Option Int
  placement_group : Option String
  load_balancers : List String
deriving DecidableEq

/-- The fields of a `LaunchConfiguration` read by
`create_launch_configuration`. -/
structure LaunchConfiguration where
  image_id : String
  name : String
  instance_type : String
  key_name : Option String
  user_data : Option String
  kernel_id : Option String
  ramdisk_id : Option String
  block_device_mappings : List (List (String × PVal))
  security_groups : List String
  instance_monitoring : Bool
deriving DecidableEq

/-- The fields of a `ScalingPolicy` read by `create_scaling_policy`. -/
structure ScalingPolicy where
  adjustment_type : String
  as_name : String
  name : String
  scaling_adjustment : Int
  cooldown : Option Int
deriving DecidableEq

/-- The `autoscale_group` argument of `get_all_activities`: either a
group name string or an `AutoScalingGroup` object. -/
inductive GroupOrName where
  | nm (s : String)
  | grp (g : AutoScalingGroup)
deriving DecidableEq

/-- A `datetime.datetime` argument, reduced to the field the module
reads from it (`isoformat()`). -/
structure Datetime where
  isoformat : String
deriving DecidableEq

/-- Base64 index alphabet (RFC 4648, as used by `base64.b64encode`). -/
def b64Alphabet : List Char :=
  "ABCDEFGHIJKLMNOPQRSTUVWXYZabcdefghijklmnopqrstuvwxyz0123456789+/".data

/-- Character for a 6-bit group. -/
def b64Char (n : Nat) : Char := b64Alphabet.getD n '='

/-- Encode a byte list into base64 characters, three bytes at a time,
padding the final partial group with `'='`. -/
def b64Chunks : List Nat → List Char
  | [] => []
  | [a] => [b64Char (a / 4), b64Char (a % 4 * 16), '=', '=']
  | [a, b] =>
    [b64Char (a / 4), b64Char (a % 4 * 16 + b / 16), b64Char (b % 16 * 4), '=']
  | a :: b :: c :: rest =>
    b64Char (a / 4) :: b64Char (a % 4 * 16 + b / 16) ::
      b64Char (b % 16 * 4 + c / 64) :: b64Char (c % 64) :: b64Chunks rest

/-- `base64.b64encode` on a (Python 2 byte) string: each character of
the argument is one byte. -/
def b64encode (s : String) : String :=
  String.mk (b64Chunks (s.data.map (fun c => c.toNat % 256)))

/-- `AutoScaleConnection._update_group`: the shared parameter assembly
for creating/updating an auto scaling group, sent via
`get_object(op, params, Request)`. -/
def update_group (op : String) (as_group : AutoScalingGroup) : OpCall :=
  let params : Params :=
    [("AutoScalingGroupName", PVal.s as_group.name),
     ("LaunchConfigurationName", PVal.s as_group.launch_config_name),
     ("MinSize", PVal.i as_group.min_size),
     ("MaxSize", PVal.i as_group.max_size)]
  let params := build_list_params params (as_group.availability_zones.map Item.str)
    "AvailabilityZones"
  let params := setOptInt params "DesiredCapacity" as_group.desired_capacity
  let params := setOptStr params "VPCZoneIdentifier" as_group.vpc_zone_identifier
  let params := setOptInt params "HealthCheckGracePeriod" as_group.health_check_period
  let params := setOptStr params "HealthCheckType" as_group.health_check_type
  let params := setOptInt params "DefaultCooldown" as_group.default_cooldown
  let params := setOptStr params "PlacementGroup" as_group.placement_group
  let params :=
    if pyStartsWith op "Create" then
      setListParams params (as_group.load_balancers.map Item.str) "LoadBalancerNames"
    else params
  { action := op, params := params, shape := RespShape.obj "Request" }

/-- `create_auto_scaling_group`. -/
def create_auto_scaling_group (as_group : AutoScalingGroup) : OpCall :=
  update_group "CreateAutoScalingGroup" as_group

/-- `delete_auto_scaling_group`. -/
def delete_auto_scaling_group (name : String) : OpCall :=
  { action := "DeleteAutoScalingGroup",
    params := [("AutoScalingGroupName", PVal.s name)],
    shape := RespShape.obj "Request" }

/-- `create_launch_configuration`. -/
def create_launch_configuration (launch_config : LaunchConfiguration) : OpCall :=
  let params : Params :=
    [("ImageId", PVal.s launch_config.image_id),
     ("LaunchConfigurationName", PVal.s launch_config.name),
     ("InstanceType", PVal.s launch_config.instance_type)]
  let params := setOptStr params "KeyName" launch_config.key_name
  let params :=
    if truthyOptStr launch_config.user_data then
      pset params "UserData" (PVal.s (b64encode (launch_config.user_data.getD "")))
    else params
  let params := setOptStr params "KernelId" launch_config.kernel_id
  let params := setOptStr params "RamdiskId" launch_config.ramdisk_id
  let params := setListParams params
    (launch_config.block_device_mappings.map Item.dict) "BlockDeviceMappings"
  let params := setListParams params
    (launch_config.security_groups.map Item.str) "SecurityGroups"
  let params :=
    if launch_config.instance_monitoring then
      pset params "InstanceMonitoring.member.Enabled" (PVal.s "true")
    else params
  { action := "CreateLaunchConfiguration", params := params,
    shape := RespShape.obj "Request" }

/-- `create_scaling_policy`.  Note the `Cooldown` parameter is guarded
by `is not None`, not by truthiness. -/
def create_scaling_policy (scaling_policy : ScalingPolicy) : OpCall :=
  let params : Params :=
    [("AdjustmentType", PVal.s scaling_policy.adjustment_type),
     ("AutoScalingGroupName", PVal.s scaling_policy.as_name),
     ("PolicyName", PVal.s scaling_policy.name),
     ("ScalingAdjustment", PVal.i scaling_policy.scaling_adjustment)]
  let params :=
    match scaling_policy.cooldown with
    | some c => pset params "Cooldown" (PVal.i c)
    | none => params
  { action := "PutScalingPolicy", params := params,
    shape := RespShape.obj "Request" }

/-- `delete_launch_configuration`. -/
def delete_launch_configuration (launch_config_name : String) : OpCall :=
  { action := "DeleteLaunchConfiguration",
    params := [("LaunchConfigurationName", PVal.s launch_config_name)],
    shape := RespShape.obj "Request" }

/-- `get_all_groups`. -/
def get_all_groups (names : List String) (max_records : Option Int)
    (next_token : Option String) : OpCall :=
  let params : Params := []
  let params := setOptInt params "MaxRecords" max_records
  let params := setOptStr params "NextToken" next_token
  let params := setListParams params (names.map Item.str) "AutoScalingGroupNames"
  { action := "DescribeAutoScalingGroups", params := params,
    shape := RespShape.listOf "member" "AutoScalingGroup" }

/-- `get_all_launch_configurations`.  Note `MaxRecords` is guarded by
`is not None`, not by truthiness. -/
def get_all_launch_configurations (names : List String) (max_records : Option Int)
    (next_token : Option String) : OpCall :=
  let params : Params := []
  let params :=
    match max_records with
    | some n => pset params "MaxRecords" (PVal.i n)
    | none => params
  let params := setListParams params (names.map Item.str) "LaunchConfigurationNames"
  let params := setOptStr params "NextToken" next_token
  { action := "DescribeLaunchConfigurations", params := params,
    shape := RespShape.listOf "member" "LaunchConfiguration" }

/-- `get_all_activities`. -/
def get_all_activities (autoscale_group : GroupOrName) (activity_ids : List String)
    (max_records : Option Int) (next_token : Option String) : OpCall :=
  let name :=
    match autoscale_group with
    | GroupOrName.nm s => s
    | GroupOrName.grp g => g.name
  let params : Params := [("AutoScalingGroupName", PVal.s name)]
  let params := setOptInt params "MaxRecords" max_records
  let params := setOptStr params "NextToken" next_token
  let params := setListParams params (activity_ids.map Item.str) "ActivityIds"
  { action := "DescribeScalingActivities", params := params,
    shape := RespShape.listOf "member" "Activity" }

/-- `delete_scheduled_action`. -/
def delete_scheduled_action (scheduled_action_name : String)
    (autoscale_group : Option String) : OpCall :=
  let params : Params := [("ScheduledActionName", PVal.s scheduled_action_name)]
  let params := setOptStr params "AutoScalingGroupName" autoscale_group
  { action := "DeleteScheduledAction", params := params, shape := RespShape.status }

/-- `terminate_instance`: `ShouldDecrementDesiredCapacity` is always
sent, with the boolean argument as its value. -/
def terminate_instance (instance_id : String) (decrement_capacity : Bool) : OpCall :=
  { action := "TerminateInstanceInAutoScalingGroup",
    params := [("InstanceId", PVal.s instance_id),
               ("ShouldDecrementDesiredCapacity", PVal.b decrement_capacity)],
    shape := RespShape.obj "Activity" }

/-- `delete_policy`. -/
def delete_policy (policy_name : String) (autoscale_group : Option String) : OpCall :=
  let params : Params := [("PolicyName", PVal.s policy_name)]
  let params := setOptStr params "AutoScalingGroupName" autoscale_group
  { action := "DeletePolicy", params := params, shape := RespShape.status }

/-- `get_all_adjustment_types`. -/
def get_all_adjustment_types : OpCall :=
  { action := "DescribeAdjustmentTypes", params := [],
    shape := RespShape.listOf "member" "AdjustmentType" }

/-- `get_all_autoscaling_instances`. -/
def get_all_autoscaling_instances (instance_ids : List String)
    (max_records : Option Int) (next_token : Option String) : OpCall :=
  let params : Params := []
  let params := setListParams params (instance_ids.map Item.str) "InstanceIds"
  let params := setOptInt params "MaxRecords" max_records
  let params := setOptStr params "NextToken" next_token
  { action := "DescribeAutoScalingInstances", params := params,
    shape := RespShape.listOf "member" "Instance" }

/-- `get_all_metric_collection_types`. -/
def get_all_metric_collection_types : OpCall :=
  { action := "DescribeMetricCollectionTypes", params := [],
    shape := RespShape.obj "MetricCollectionTypes" }

/-- `get_all_policies`. -/
def get_all_policies (as_group : Option String) (policy_names : List String)
    (max_records : Option Int) (next_token : Option String) : OpCall :=
  let params : Params := []
  let params := setOptStr params "AutoScalingGroupName" as_group
  let params := setListParams params (policy_names.map Item.str) "PolicyNames"
  let params := setOptInt params "MaxRecords" max_records
  let params := setOptStr params "NextToken" next_token
  { action := "DescribePolicies", params := params,
    shape := RespShape.listOf "member" "ScalingPolicy" }

/-- `get_all_scaling_process_types`. -/
def get_all_scaling_process_types : OpCall :=
  { action := "DescribeScalingProcessTypes", params := [],
    shape := RespShape.listOf "member" "ProcessType" }

/-- `suspend_processes`. -/
def suspend_processes (as_group : String) (scaling_processes : List String) : OpCall :=
  let params : Params := [("AutoScalingGroupName", PVal.s as_group)]
  let params := setListParams params (scaling_processes.map Item.str) "ScalingProcesses"
  { action := "SuspendProcesses", params := params, shape := RespShape.status }

/-- `resume_processes`. -/
def resume_processes (as_group : String) (scaling_processes : List String) : OpCall :=
  let params : Params := [("AutoScalingGroupName", PVal.s as_group)]
  let params := setListParams params (scaling_processes.map Item.str) "ScalingProcesses"
  { action := "ResumeProcesses", params := params, shape := RespShape.status }

/-- `create_scheduled_group_action`. -/
def create_scheduled_group_action (as_group : String) (name : String) (time : Datetime)
    (desired_capacity : Option Int) (min_size : Option Int) (max_size : Option Int) :
    OpCall :=
  let params : Params :=
    [("AutoScalingGroupName", PVal.s as_group),
     ("ScheduledActionName", PVal.s name),
     ("Time", PVal.s time.isoformat)]
  let params := setOptInt params "DesiredCapacity" desired_capacity
  let params := setOptInt params "MinSize" min_size
  let params := setOptInt params "MaxSize" max_size
  { action := "PutScheduledUpdateGroupAction", params := params,
    shape := RespShape.status }

/-- `get_all_scheduled_actions`.  The `start_time` and `end_time`
arguments exist in the source signature but are never read. -/
def get_all_scheduled_actions (as_group : Option String)
    (_start_time _end_time : Option String) (scheduled_actions : List String)
    (max_records : Option Int) (next_token : Option String) : OpCall :=
  let params : Params := []
  let params := setOptStr params "AutoScalingGroupName" as_group
  let params := setListParams params (scheduled_actions.map Item.str)
    "ScheduledActionNames"
  let params := setOptInt params "MaxRecords" max_records
  let params := setOptStr params "NextToken" next_token
  { action := "DescribeScheduledActions", params := params,
    shape := RespShape.listOf "member" "ScheduledUpdateGroupAction" }

/-- `disable_metrics_collection`. -/
def disable_metrics_collection (as_group : String) (metrics : List String) : OpCall :=
  let params : Params := [("AutoScalingGroupName", PVal.s as_group)]
  let params := setListParams params (metrics.map Item.str) "Metrics"
  { action := "DisableMetricsCollection", params := params, shape := RespShape.status }

/-- `enable_metrics_collection`. -/
def enable_metrics_collection (as_group : String) (granularity : String)
    (metrics : List String) : OpCall :=
  let params : Params :=
    [("AutoScalingGroupName", PVal.s as_group),
     ("Granularity", PVal.s granularity)]
  let params := setListParams params (metrics.map Item.str) "Metrics"
  { action := "EnableMetricsCollection", params := params, shape := RespShape.status }

/-- `execute_policy`. -/
def execute_policy (policy_name : String) (as_group : Option String)
    (honor_cooldown : Bool) : OpCall :=
  let params : Params := [("PolicyName", PVal.s policy_name)]
  let params := setOptStr params "AutoScalingGroupName" as_group
  let params :=
    if honor_cooldown then pset params "HonorCooldown" (PVal.b honor_cooldown)
    else params
  { action := "ExecutePolicy", params := params, shape := RespShape.status }

/-- `set_instance_health`: `ShouldRespectGracePeriod` is always sent,
as the string `'true'` or `'false'`. -/
def set_instance_health (instance_id : String) (health_status : String)
    (should_respect_grace_period : Bool) : OpCall :=
  let params : Params :=
    [("InstanceId", PVal.s instance_id),
     ("HealthStatus", PVal.s health_status)]
  let params :=
    if should_respect_grace_period then
      pset params "ShouldRespectGracePeriod" (PVal.s "true")
    else
      pset params "ShouldRespectGracePeriod" (PVal.s "false")
  { action := "SetInstanceHealth", params := params, shape := RespShape.status }

/-- Modelled from the spec: the list-mode response decoder of the
transport collaborator (`get_list`, defined in `boto.connection`, which
is not part of this repository's sources) scans the response for
repeated elements matching a given tag name and returns their contents
as an ordered sequence. -/
def get_list_decode (tag : String) (resp : List (String × String)) : List String :=
  (resp.filter (fun e => e.1 = tag)).map Prod.snd

/-- Render a parameter value back to the scalar text it carries, as it
would appear inside a response element. -/
def pvalText : PVal → String
  | PVal.s v => v
  | PVal.i v => toString v
  | PVal.b v => if v then "True" else "False"

/-- A synthetic list response echoing each encoded entry of a parameter
mapping as a `member` element. -/
def synth_member_response (p : Params) : List (String × String) :=
  p.map (fun kv => ("member", pvalText kv.2))

/-- Strings with equal character data are equal. -/
theorem strExt : ∀ {a b : String}, a.data = b.data → a = b
  | ⟨_⟩, ⟨_⟩, rfl => rfl

/-- Character data of an appended string. -/
theorem strDataAppend : ∀ (a b : String), (a ++ b).data = a.data ++ b.data
  | ⟨_⟩, ⟨_⟩ => rfl

/-- String append is associative. -/
theorem strAppendAssoc (a b c : String) : a ++ b ++ c = a ++ (b ++ c) := by
  apply strExt
  simp [strDataAppend]

/-- String append cancels on the left. -/
theorem strAppendLeftCancel {a b c : String} (h : a ++ b = a ++ c) : b = c := by
  apply strExt
  have hd : a.data ++ b.data = a.data ++ c.data := by
    rw [← strDataAppend, ← strDataAppend, h]
  exact List.append_cancel_left hd

/-- A string is nonempty iff its data is. -/
theorem strLengthPos {s : String} (h : s ≠ "") : 1 ≤ s.data.length := by
  rcases s with ⟨l⟩
  cases l with
  | nil => exact absurd rfl h
  | cons c t => simp

/-- A literal whose first `n` characters differ from those of another
string cannot be that string extended on the right. -/
theorem litNeAppend (k pre : String) (n : Nat) (h₁ : n ≤ pre.data.length)
    (hne : k.data.take n ≠ pre.data.take n) : ∀ t : String, k ≠ pre ++ t := by
  intro t h
  apply hne
  have hd : k.data = pre.data ++ t.data := by rw [h, strDataAppend]
  rw [hd, List.take_append_of_le_length h₁]

/-- Two right-extensions of strings whose first `n` characters differ
are distinct. -/
theorem appendNeAppend (p₁ p₂ : String) (n : Nat) (h₁ : n ≤ p₁.data.length)
    (h₂ : n ≤ p₂.data.length) (hne : p₁.data.take n ≠ p₂.data.take n) :
    ∀ t₁ t₂ : String, p₁ ++ t₁ ≠ p₂ ++ t₂ := by
  intro t₁ t₂ h
  apply hne
  have hd : p₁.data ++ t₁.data = p₂.data ++ t₂.data := by
    rw [← strDataAppend, ← strDataAppend, h]
  have := congrArg (List.take n) hd
  rwa [List.take_append_of_le_length h₁, List.take_append_of_le_length h₂] at this

/-- Splitting two equal lists at the first marker character not
occurring on either left part. -/
theorem split_at_marker :
    ∀ (a : List Char) (b : List Char) (k k' : List Char),
      '.' ∉ a → '.' ∉ b → a ++ '.' :: k = b ++ '.' :: k' → a = b ∧ k = k'
  | [], [], _, _, _, _, h => by simpa using h
  | [], c :: b', _, _, _, hb, h => by
    simp only [List.nil_append, List.cons_append, List.cons.injEq] at h
    exact absurd (h.1 ▸ List.mem_cons_self c b') hb
  | c :: a', [], _, _, ha, _, h => by
    simp only [List.nil_append, List.cons_append, List.cons.injEq] at h
    exact absurd (h.1 ▸ List.mem_cons_self c a') ha
  | c :: a', c' :: b', k, k', ha, hb, h => by
    simp only [List.cons_append, List.cons.injEq] at h
    have := split_at_marker a' b' k k' (fun hm => ha (List.mem_cons_of_mem c hm))
      (fun hm => hb (List.mem_cons_of_mem c' hm)) h.2
    exact ⟨by rw [h.1, this.1], this.2⟩

/-- Accumulator lemma for the decimal printer. -/
theorem decDigitsCore_acc :
    ∀ (fuel n : Nat) (acc : List Char),
      decDigitsCore fuel n acc = decDigitsCore fuel n [] ++ acc := by
  intro fuel
  induction fuel with
  | zero => intro n acc; simp [decDigitsCore]
  | succ f ih =>
    intro n acc
    by_cases h : n < 10
    · simp [decDigitsCore, h]
    · simp only [decDigitsCore, h, if_false]
      rw [ih (n / 10) (decDigitChar (n % 10) :: acc),
        ih (n / 10) [decDigitChar (n % 10)], List.append_assoc]
      rfl

/-- The fuel does not matter once it exceeds the argument. -/
theorem decDigitsCore_fuel :
    ∀ (n f₁ f₂ : Nat), n < f₁ → n < f₂ →
      decDigitsCore f₁ n [] = decDigitsCore f₂ n [] := by
  intro n
  induction n using Nat.strong_induction_on with
  | _ n ih =>
    intro f₁ f₂ h₁ h₂
    match f₁, f₂ with
    | fa + 1, fb + 1 =>
      by_cases h : n < 10
      · simp [decDigitsCore, h]
      · simp only [decDigitsCore, h, if_false]
        rw [decDigitsCore_acc fa, decDigitsCore_acc fb]
        have hlt : n / 10 < n := Nat.div_lt_self (by omega) (by omega)
        rw [ih (n / 10) hlt fa fb (by omega) (by omega)]

/-- The digit list of `n`, with the fuel eliminated. -/
def decDigits (n : Nat) : List Char := decDigitsCore (n + 1) n []

/-- Unfolding rule for `decDigits`. -/
theorem decDigits_rec (n : Nat) :
    decDigits n =
      if n < 10 then [decDigitChar n]
      else decDigits (n / 10) ++ [decDigitChar (n % 10)] := by
  by_cases h : n < 10
  · simp [decDigits, decDigitsCore, h]
  · simp only [decDigits, decDigitsCore, h, if_false]
    rw [decDigitsCore_acc (n := n / 10)]
    have hlt : n / 10 < n := Nat.div_lt_self (by omega) (by omega)
    rw [decDigitsCore_fuel (n / 10) n (n / 10 + 1) (by omega) (by omega)]
    rfl

/-- Digit characters of digits are never the marker `'.'`. -/
theorem decDigitChar_ne_dot {n : Nat} (h : n < 10) : decDigitChar n ≠ '.' := by
  interval_cases n <;> decide

/-- Numeric value of a digit character. -/
theorem decDigitChar_toNat {n : Nat} (h : n < 10) :
    (decDigitChar n).toNat = 48 + n := by
  interval_cases n <;> decide

/-- The decimal digit list never contains `'.'`. -/
theorem dot_not_mem_decDigits : ∀ n : Nat, '.' ∉ decDigits n := by
  intro n
  induction n using Nat.strong_induction_on with
  | _ n ih =>
    rw [decDigits_rec]
    by_cases h : n < 10
    · simpa [h] using (decDigitChar_ne_dot h).symm
    · simp only [h, if_false, List.mem_append, List.mem_singleton]
      rintro (hm | hm)
      · exact ih (n / 10) (Nat.div_lt_self (by omega) (by omega)) hm
      · exact (decDigitChar_ne_dot (Nat.mod_lt n (by omega))) hm.symm

/-- Reading the decimal digit list back yields the number. -/
theorem parse_decDigits :
    ∀ n : Nat,
      (decDigits n).foldl (fun a c => 10 * a + (c.toNat - 48)) 0 = n := by
  intro n
  induction n using Nat.strong_induction_on with
  | _ n ih =>
    rw [decDigits_rec]
    by_cases h : n < 10
    · simp [h, List.foldl, decDigitChar_toNat h]
    · simp only [h, if_false, List.foldl_append,
        ih (n / 10) (Nat.div_lt_self (by omega) (by omega))]
      simp [List.foldl, decDigitChar_toNat (Nat.mod_lt n (by omega))]
      omega

/-- Data view of `decRepr`. -/
theorem decRepr_data (n : Nat) : (decRepr n).data = decDigits n := rfl

/-- `decRepr` is injective. -/
theorem decRepr_inj {m n : Nat} (h : decRepr m = decRepr n) : m = n := by
  have hd : decDigits m = decDigits n := by
    rw [← decRepr_data, ← decRepr_data, h]
  have := congrArg (List.foldl (fun a c => 10 * a + (c.toNat - 48)) 0) hd
  rwa [parse_decDigits, parse_decDigits] at this

/-- Member keys with distinct indices are distinct. -/
theorem memberKey_inj {label : String} {i j : Nat} (h : memberKey label i = memberKey label j) :
    i = j :=
  decRepr_inj (strAppendLeftCancel (a := label ++ ".member.") h)

/-- A scalar member key never equals a dictionary-field member key. -/
theorem memberKey_ne_field (label : String) (i j : Nat) (t : String) :
    memberKey label i ≠ memberKey label j ++ "." ++ t := by
  intro h
  have hd := congrArg String.data h
  simp only [memberKey, strDataAppend, decRepr_data, List.append_assoc] at hd
  have h2 := List.append_cancel_left (List.append_cancel_left hd)
  apply dot_not_mem_decDigits i
  rw [h2]
  refine List.mem_append_of_mem_right _ (List.mem_append_of_mem_left _ ?_)
  decide

/-- Dictionary-field member keys agree only on equal index and field. -/
theorem memberKey_field_inj {label : String} {i j : Nat} {t t' : String}
    (h : memberKey label i ++ "." ++ t = memberKey label j ++ "." ++ t') :
    i = j ∧ t = t' := by
  have hd := congrArg String.data h
  simp only [memberKey, strDataAppend, decRepr_data, List.append_assoc] at hd
  have h2 := List.append_cancel_left (List.append_cancel_left hd)
  simp only [List.singleton_append] at h2
  have hsplit := split_at_marker (decDigits i) (decDigits j) t.data t'.data
    (dot_not_mem_decDigits i) (dot_not_mem_decDigits j) h2
  refine ⟨decRepr_inj (strExt ?_), strExt hsplit.2⟩
  rw [decRepr_data, decRepr_data]
  exact hsplit.1

/-- A key with no `label ++ ".member."` shape at all. -/
def NotMemberShaped (label key : String) : Prop :=
  ∀ t : String, key ≠ label ++ ".member." ++ t

/-- A key that cannot clash with any member key of index `≥ i`. -/
def KeyFresh (label : String) (i : Nat) (key : String) : Prop :=
  ∀ j, i ≤ j →
    key ≠ memberKey label j ∧ ∀ t : String, key ≠ memberKey label j ++ "." ++ t

/-- The dictionaries of an item list have no duplicate field names
(Python dictionaries cannot). -/
def DictOk : Item → Prop
  | Item.dict d => (d.map Prod.fst).Nodup
  | _ => True

/-- A key without the member shape is fresh for every index. -/
theorem keyFresh_of_notMemberShaped {label key : String} (h : NotMemberShaped label key)
    (i : Nat) : KeyFresh label i key := by
  intro j _
  constructor
  · exact h (decRepr j)
  · intro t
    have he : memberKey label j ++ "." ++ t
        = label ++ ".member." ++ (decRepr j ++ ("." ++ t)) := by
      apply strExt
      simp [memberKey, strDataAppend, List.append_assoc]
    rw [he]
    exact h (decRepr j ++ ("." ++ t))

/-- Freshness is antitone in the index bound. -/
theorem keyFresh_mono {label key : String} {i j : Nat} (hij : i ≤ j)
    (h : KeyFresh label i key) : KeyFresh label j key :=
  fun m hm => h m (le_trans hij hm)

/-- Lookup after a Python dict assignment with a different key. -/
theorem plookup_pset_ne (k k' : String) (h : k' ≠ k) :
    ∀ (p : Params) (v : PVal), plookup (pset p k v) k' = plookup p k'
  | [], v => by
    have hk : ¬(k = k') := fun he => h he.symm
    simp [pset, plookup, hk]
  | (a, b) :: rest, v => by
    have hk : ¬(k = k') := fun he => h he.symm
    by_cases ha : a = k
    · subst ha
      simp [pset, plookup, hk]
    · simp only [pset, if_neg ha, plookup]
      by_cases ha' : a = k'
      · simp [ha']
      · simp [ha', plookup_pset_ne k k' h rest v]

/-- Assignment of a key absent from the mapping appends the binding. -/
theorem pset_append_fresh {k : String} :
    ∀ {p : Params}, (∀ kv ∈ p, kv.1 ≠ k) → ∀ v : PVal, pset p k v = p ++ [(k, v)]
  | [], _, v => rfl
  | (a, b) :: rest, h, v => by
    have ha : a ≠ k := h (a, b) (List.mem_cons_self _ _)
    simp only [pset, if_neg ha, List.cons_append, List.cons.injEq, true_and]
    exact pset_append_fresh (fun kv hkv => h kv (List.mem_cons_of_mem _ hkv)) v

/-- A successful lookup comes from a binding in the mapping. -/
theorem plookup_some_mem {k : String} {v : PVal} :
    ∀ {p : Params}, plookup p k = some v → (k, v) ∈ p
  | [], h => by simp [plookup] at h
  | (a, b) :: rest, h => by
    by_cases ha : a = k
    · simp only [plookup, if_pos ha] at h
      have hb : b = v := by injection h
      rw [← ha, ← hb]
      exact List.mem_cons_self _ _
    · simp only [plookup, if_neg ha] at h
      exact List.mem_cons_of_mem _ (plookup_some_mem h)

/-- A binding of the result of an assignment is an old binding or the
assigned one. -/
theorem mem_pset {kv : String × PVal} {k : String} {v : PVal} :
    ∀ {p : Params}, kv ∈ pset p k v → kv ∈ p ∨ kv = (k, v)
  | [], h => by simpa [pset] using h
  | (a, b) :: rest, h => by
    by_cases ha : a = k
    · simp only [pset, if_pos ha] at h
      rcases List.mem_cons.mp h with h' | h'
      · exact Or.inr h'
      · exact Or.inl (List.mem_cons_of_mem _ h')
    · simp only [pset, if_neg ha] at h
      rcases List.mem_cons.mp h with h' | h'
      · exact Or.inl (h' ▸ List.mem_cons_self _ _)
      · rcases mem_pset h' with h'' | h''
        · exact Or.inl (List.mem_cons_of_mem _ h'')
        · exact Or.inr h''

/-- Lookup in an extended mapping finds existing bindings first. -/
theorem plookup_append_left {k : String} {v : PVal} :
    ∀ {p : Params} (q : Params), plookup p k = some v → plookup (p ++ q) k = some v
  | [], _, h => by simp [plookup] at h
  | (a, b) :: rest, q, h => by
    by_cases ha : a = k
    · simpa [plookup, ha] using h
    · simp only [plookup, if_neg ha] at h ⊢
      exact plookup_append_left q h

/-- The dictionary fold of the encoder does not disturb lookups of
keys outside its field-key family. -/
theorem plookup_dictfold_ne {label : String} {i : Nat} {k : String}
    (hf : ∀ kk : String, k ≠ memberKey label i ++ "." ++ kk) :
    ∀ (d : List (String × PVal)) (p : Params),
      plookup (d.foldl (fun q kv => pset q (memberKey label i ++ "." ++ kv.1) kv.2) p) k
        = plookup p k
  | [], p => rfl
  | (k0, v0) :: d', p => by
    rw [List.foldl_cons, plookup_dictfold_ne hf d' _, plookup_pset_ne _ _ (hf k0)]

/-- One encoder iteration does not disturb lookups of keys outside the
member-key family of its index. -/
theorem plookup_apply_item_ne {label : String} {i : Nat} {k : String}
    (hk : k ≠ memberKey label i) (hf : ∀ kk : String, k ≠ memberKey label i ++ "." ++ kk)
    (it : Item) (p : Params) :
    plookup (apply_list_item label i it p) k = plookup p k := by
  cases it with
  | str s => exact plookup_pset_ne _ _ hk p (PVal.s s)
  | dict d => exact plookup_dictfold_ne hf d p
  | other => rfl

/-- The encoder loop does not disturb lookups of keys without the
member shape. -/
theorem plookup_build_from_ne {label k : String} (h : NotMemberShaped label k) :
    ∀ (items : List Item) (i : Nat) (p : Params),
      plookup (build_list_params_from label i items p) k = plookup p k
  | [], _, _ => rfl
  | it :: rest, i, p => by
    rw [build_list_params_from, plookup_build_from_ne h rest (i + 1) _]
    have hfr := keyFresh_of_notMemberShaped h i i (le_refl i)
    exact plookup_apply_item_ne hfr.1 hfr.2 it p

/-- `build_list_params` does not disturb lookups of keys without the
member shape. -/
theorem plookup_build_ne {label k : String} (h : NotMemberShaped label k)
    (p : Params) (items : List Item) :
    plookup (build_list_params p items label) k = plookup p k :=
  plookup_build_from_ne h items 1 p

/-- Conditional list encoding does not disturb such lookups either. -/
theorem plookup_setList_ne {label k : String} (h : NotMemberShaped label k)
    (p : Params) (items : List Item) :
    plookup (setListParams p items label) k = plookup p k := by
  unfold setListParams
  split
  · exact plookup_build_ne h p items
  · rfl

/-- Conditional optional-integer assignment with another key. -/
theorem plookup_setOptInt_ne (k k' : String) (h : k' ≠ k) (p : Params) (v : Option Int) :
    plookup (setOptInt p k v) k' = plookup p k' := by
  unfold setOptInt
  split
  · exact plookup_pset_ne _ _ h p _
  · rfl

/-- Conditional optional-string assignment with another key. -/
theorem plookup_setOptStr_ne (k k' : String) (h : k' ≠ k) (p : Params) (v : Option String) :
    plookup (setOptStr p k v) k' = plookup p k' := by
  unfold setOptStr
  split
  · exact plookup_pset_ne _ _ h p _
  · rfl

/-- Falsy optional integers leave the mapping unchanged. -/
theorem setOptInt_falsy {v : Option Int} (h : truthyOptInt v = false) (p : Params)
    (k : String) : setOptInt p k v = p := by
  unfold setOptInt
  rw [h]
  rfl

/-- Falsy optional strings leave the mapping unchanged. -/
theorem setOptStr_falsy {v : Option String} (h : truthyOptStr v = false) (p : Params)
    (k : String) : setOptStr p k v = p := by
  unfold setOptStr
  rw [h]
  rfl

/-- An empty list argument leaves the mapping unchanged. -/
theorem setListParams_empty (p : Params) (label : String) :
    setListParams p [] label = p := rfl

/-- A dictionary item's fold appends exactly its field entries when
the fields are fresh and mutually distinct. -/
theorem dictfold_append {label : String} {i : Nat} :
    ∀ (d : List (String × PVal)) (p : Params),
      (∀ kv ∈ p, ∀ kk ∈ d.map Prod.fst, kv.1 ≠ memberKey label i ++ "." ++ kk) →
      (d.map Prod.fst).Nodup →
      d.foldl (fun q kv => pset q (memberKey label i ++ "." ++ kv.1) kv.2) p
        = p ++ d.map (fun kv => (memberKey label i ++ "." ++ kv.1, kv.2))
  | [], p, _, _ => by simp
  | (k0, v0) :: d', p, hfresh, hnd => by
    rw [List.foldl_cons]
    have hps : pset p (memberKey label i ++ "." ++ k0) v0
        = p ++ [(memberKey label i ++ "." ++ k0, v0)] :=
      pset_append_fresh
        (fun kv hkv => hfresh kv hkv k0 (by simp)) v0
    rw [hps]
    have hnd' : (d'.map Prod.fst).Nodup := by
      simpa using List.Nodup.of_cons hnd
    have hk0 : k0 ∉ d'.map Prod.fst := by
      have := hnd
      simp only [List.map_cons, List.nodup_cons] at this
      exact this.1
    have hfresh' : ∀ kv ∈ p ++ [(memberKey label i ++ "." ++ k0, v0)],
        ∀ kk ∈ d'.map Prod.fst, kv.1 ≠ memberKey label i ++ "." ++ kk := by
      intro kv hkv kk hkk
      rcases List.mem_append.mp hkv with hkv | hkv
      · exact hfresh kv hkv kk (by simp [hkk])
      · have : kv = (memberKey label i ++ "." ++ k0, v0) := by simpa using hkv
        rw [this]
        intro he
        have : k0 = kk := strAppendLeftCancel (a := memberKey label i ++ ".") he
        exact hk0 (this ▸ hkk)
    rw [dictfold_append d' _ hfresh' hnd']
    simp [List.append_assoc]

/-- One encoder iteration appends exactly the item's entries when the
existing keys are fresh. -/
theorem apply_item_append {label : String} {i : Nat} {it : Item} {p : Params}
    (hp : ∀ kv ∈ p, KeyFresh label i kv.1) (hd : DictOk it) :
    apply_list_item label i it p = p ++ item_entries label i it := by
  cases it with
  | str s =>
    exact pset_append_fresh (fun kv hkv => ((hp kv hkv) i (le_refl i)).1) (PVal.s s)
  | dict d =>
    exact dictfold_append d p (fun kv hkv kk _ => ((hp kv hkv) i (le_refl i)).2 kk) hd
  | other => simp [apply_list_item, item_entries]

/-- Keys of an item's entries are member keys of its index. -/
theorem item_entries_key {label : String} {i : Nat} {it : Item} {kv : String × PVal}
    (h : kv ∈ item_entries label i it) :
    kv.1 = memberKey label i ∨ ∃ t : String, kv.1 = memberKey label i ++ "." ++ t := by
  cases it with
  | str s =>
    left
    have : kv = (memberKey label i, PVal.s s) := by simpa [item_entries] using h
    rw [this]
  | dict d =>
    right
    simp only [item_entries, List.mem_map] at h
    rcases h with ⟨a, _, ha⟩
    exact ⟨a.1, by rw [← ha]⟩
  | other => simp [item_entries] at h

/-- Keys emitted at index `i` are fresh for indices above `i`. -/
theorem keyFresh_succ_item {label : String} {i : Nat} {it : Item} {kv : String × PVal}
    (h : kv ∈ item_entries label i it) : KeyFresh label (i + 1) kv.1 := by
  rcases item_entries_key h with hk | ⟨t, hk⟩ <;> rw [hk] <;> intro j hj <;> constructor
  · intro he
    exact absurd (memberKey_inj he) (by omega)
  · intro t'
    exact memberKey_ne_field label i j t'
  · exact (memberKey_ne_field label j i t).symm
  · intro t' he
    exact absurd (memberKey_field_inj he).1 (by omega)

/-- Master characterization: on fresh existing keys and duplicate-free
dictionaries, the encoder loop appends exactly the indexed entries. -/
theorem build_from_entries {label : String} :
    ∀ (items : List Item) (i : Nat) (p : Params),
      (∀ kv ∈ p, KeyFresh label i kv.1) → (∀ it ∈ items, DictOk it) →
      build_list_params_from label i items p = p ++ list_entries label i items
  | [], _, p, _, _ => by simp [build_list_params_from, list_entries]
  | it :: rest, i, p, hp, hd => by
    rw [build_list_params_from,
      apply_item_append hp (hd it (List.mem_cons_self _ _))]
    have hp' : ∀ kv ∈ p ++ item_entries label i it, KeyFresh label (i + 1) kv.1 := by
      intro kv hkv
      rcases List.mem_append.mp hkv with hkv | hkv
      · exact keyFresh_mono (Nat.le_succ i) (hp kv hkv)
      · exact keyFresh_succ_item hkv
    rw [build_from_entries rest (i + 1) _ hp'
      (fun x hx => hd x (List.mem_cons_of_mem _ hx))]
    rw [list_entries, List.append_assoc]

/-- `build_list_params` on a mapping with no member-shaped keys
appends exactly the indexed entries. -/
theorem build_entries (label : String) (items : List Item) (p : Params)
    (hp : ∀ kv ∈ p, NotMemberShaped label kv.1) (hd : ∀ it ∈ items, DictOk it) :
    build_list_params p items label = p ++ list_entries label 1 items :=
  build_from_entries items 1 p
    (fun kv h => keyFresh_of_notMemberShaped (hp kv h) 1) hd

/-- Assignment then lookup of the same key. -/
theorem plookup_pset_self : ∀ (p : Params) (k : String) (v : PVal),
    plookup (pset p k v) k = some v
  | [], k, v => by simp [pset, plookup]
  | (a, b) :: rest, k, v => by
    by_cases ha : a = k
    · simp [pset, plookup, ha]
    · simp only [pset, if_neg ha, plookup, if_neg ha]
      exact plookup_pset_self rest k v

/-- Lookup walks past a binding with a different key. -/
theorem plookup_cons_ne (a k : String) (h : a ≠ k) (b : PVal) (rest : Params) :
    plookup ((a, b) :: rest) k = plookup rest k := by
  simp [plookup, h]

/-- Lookup in a conditional construction whose branches agree on the
key falls through to the common base. -/
theorem plookup_ite {c : Prop} [Decidable c] {q p : Params} {k : String}
    (h : plookup q k = plookup p k) :
    plookup (if c then q else p) k = plookup p k := by
  by_cases hc : c
  · simpa [hc] using h
  · simp [hc]

/-- A key whose first `n` characters differ from the label prefix's is
not member-shaped for that label. -/
theorem notMemberShaped_head (label k : String) (n : Nat)
    (hn : n ≤ (label ++ ".member.").data.length)
    (h : k.data.take n ≠ (label ++ ".member.").data.take n) :
    NotMemberShaped label k := by
  intro t
  exact litNeAppend k (label ++ ".member.") n hn h t

/-- A right-extension of a prefix whose first `n` characters differ
from the label prefix's is not member-shaped for that label. -/
theorem notMemberShaped_append (label pre : String) (n : Nat) (t : String)
    (hp : n ≤ pre.data.length) (hn : n ≤ (label ++ ".member.").data.length)
    (h : pre.data.take n ≠ (label ++ ".member.").data.take n) :
    NotMemberShaped label (pre ++ t) := by
  intro t'
  exact appendNeAppend pre (label ++ ".member.") n hp hn h t t'

/-- Lookup falls through an extension when the key is absent from the
existing mapping. -/
theorem plookup_append_none {k : String} :
    ∀ {p : Params} (q : Params), plookup p k = none → plookup (p ++ q) k = plookup q k
  | [], q, _ => rfl
  | (a, b) :: rest, q, h => by
    by_cases ha : a = k
    · simp [plookup, ha] at h
    · simp only [plookup, if_neg ha] at h
      simpa [plookup, ha] using plookup_append_none q h

/-- Lookup of a key bound nowhere returns nothing. -/
theorem plookup_none_of_all_ne {k : String} :
    ∀ {p : Params}, (∀ kv ∈ p, kv.1 ≠ k) → plookup p k = none
  | [], _ => rfl
  | (a, b) :: rest, h => by
    have ha : a ≠ k := h (a, b) (List.mem_cons_self _ _)
    rw [plookup_cons_ne a k ha]
    exact plookup_none_of_all_ne (fun kv hkv => h kv (List.mem_cons_of_mem _ hkv))

/-- Bindings surviving the dictionary fold are old bindings or carry a
field member key. -/
theorem mem_dictfold {label : String} {i : Nat} {kv : String × PVal} :
    ∀ (d : List (String × PVal)) (p : Params),
      kv ∈ d.foldl (fun q e => pset q (memberKey label i ++ "." ++ e.1) e.2) p →
      kv ∈ p ∨ ∃ t : String, kv.1 = memberKey label i ++ "." ++ t
  | [], _, h => Or.inl h
  | (k0, v0) :: d', p, h => by
    rw [List.foldl_cons] at h
    rcases mem_dictfold d' _ h with h' | h'
    · rcases mem_pset h' with h'' | h''
      · exact Or.inl h''
      · exact Or.inr ⟨k0, by rw [h'']⟩
    · exact Or.inr h'

/-- Bindings of the encoder result are old bindings or member-shaped. -/
theorem mem_build_from {label : String} :
    ∀ (items : List Item) (i : Nat) (p : Params) {kv : String × PVal},
      kv ∈ build_list_params_from label i items p →
      kv ∈ p ∨ ∃ t : String, kv.1 = label ++ ".member." ++ t
  | [], _, _, _, h => Or.inl h
  | it :: rest, i, p, kv, h => by
    rw [build_list_params_from] at h
    rcases mem_build_from rest (i + 1) _ h with h' | h'
    · cases it with
      | str s =>
        rcases mem_pset h' with h'' | h''
        · exact Or.inl h''
        · exact Or.inr ⟨decRepr i, by rw [h'']; rfl⟩
      | dict d =>
        rcases mem_dictfold d p h' with h'' | ⟨t, h''⟩
        · exact Or.inl h''
        · refine Or.inr ⟨decRepr i ++ ("." ++ t), ?_⟩
          rw [h'']
          apply strExt
          simp [memberKey, strDataAppend, List.append_assoc]
      | other => exact Or.inl h'
    · exact Or.inr h'

/-- Entries of a scalar string list, written with explicit 1-based
indices. -/
theorem list_entries_str (label : String) :
    ∀ (xs : List String) (i : Nat),
      list_entries label i (xs.map Item.str)
        = (xs.enumFrom i).map (fun e => (memberKey label e.1, PVal.s e.2))
  | [], _ => rfl
  | x :: xs', i => by
    simp [list_entries, item_entries, list_entries_str label xs' (i + 1), List.enumFrom]

/-- Entries of a dictionary list, written with explicit 1-based
indices. -/
theorem list_entries_dict (label : String) :
    ∀ (ds : List (List (String × PVal))) (i : Nat),
      list_entries label i (ds.map Item.dict)
        = ((ds.enumFrom i).map
            (fun e => e.2.map (fun kv => (memberKey label e.1 ++ "." ++ kv.1, kv.2)))).flatten
  | [], _ => rfl
  | d :: ds', i => by
    simp [list_entries, item_entries, list_entries_dict label ds' (i + 1), List.enumFrom]

/-- Every emitted entry comes from some item, at that item's index. -/
theorem mem_list_entries {label : String} {kv : String × PVal} :
    ∀ (items : List Item) (i : Nat),
      kv ∈ list_entries label i items →
      ∃ ℓ it, items.get? ℓ = some it ∧ kv ∈ item_entries label (i + ℓ) it
  | [], _, h => by simp [list_entries] at h
  | it :: rest, i, h => by
    rw [list_entries] at h
    rcases List.mem_append.mp h with h' | h'
    · exact ⟨0, it, rfl, by simpa using h'⟩
    · rcases mem_list_entries rest (i + 1) h' with ⟨ℓ, it', hg, hm⟩
      exact ⟨ℓ + 1, it', hg, by rwa [show i + (ℓ + 1) = i + 1 + ℓ by omega]⟩

/-- With no dictionary items, at most one entry is emitted per item. -/
theorem list_entries_le (label : String) :
    ∀ (items : List Item) (i : Nat),
      (∀ it ∈ items, ∀ d, it ≠ Item.dict d) →
      (list_entries label i items).length ≤ items.length
  | [], _, _ => by simp [list_entries]
  | it :: rest, i, hnd => by
    have hr := list_entries_le label rest (i + 1)
      (fun x hx => hnd x (List.mem_cons_of_mem _ hx))
    rw [list_entries]
    cases it with
    | str s => simp only [item_entries, List.length_append, List.length_cons,
        List.length_nil]; omega
    | dict d => exact absurd rfl (hnd (Item.dict d) (List.mem_cons_self _ _) d)
    | other => simp only [item_entries, List.nil_append, List.length_cons]; omega

/-- With no dictionary items and one skipped item, fewer entries than
items are emitted. -/
theorem list_entries_skip_lt (label : String) :
    ∀ (items : List Item) (i : Nat) (j : Nat),
      items.get? j = some Item.other →
      (∀ it ∈ items, ∀ d, it ≠ Item.dict d) →
      (list_entries label i items).length < items.length
  | [], _, j, hj, _ => by simp at hj
  | it :: rest, i, 0, hj, hnd => by
    have : it = Item.other := by simpa using hj
    subst this
    rw [list_entries]
    simp only [item_entries, List.nil_append, List.length_cons]
    calc (list_entries label (i + 1) rest).length
        ≤ rest.length := list_entries_le label rest (i + 1)
          (fun x hx => hnd x (List.mem_cons_of_mem _ hx))
      _ < rest.length + 1 := by omega
  | it :: rest, i, j + 1, hj, hnd => by
    have hj' : rest.get? j = some Item.other := by simpa using hj
    have hr := list_entries_skip_lt label rest (i + 1) j hj'
      (fun x hx => hnd x (List.mem_cons_of_mem _ hx))
    rw [list_entries]
    cases it with
    | str s => simp only [item_entries, List.length_append, List.length_cons,
        List.length_nil]; omega
    | dict d => exact absurd rfl (hnd (Item.dict d) (List.mem_cons_self _ _) d)
    | other => simp only [item_entries, List.nil_append, List.length_cons]; omega

/-- A response element matching the tag contributes its text. -/
theorem decode_cons_hit (tag v : String) (L : List (String × String)) :
    get_list_decode tag ((tag, v) :: L) = v :: get_list_decode tag L := by
  simp [get_list_decode]

/-- Decoding a synthetic member response of string-valued indexed
entries recovers the underlying string list. -/
theorem decode_synth_str (f : Nat → String) :
    ∀ (xs : List String) (i : Nat),
      get_list_decode "member"
        (synth_member_response
          ((xs.enumFrom i).map (fun e => (f e.1, PVal.s e.2)))) = xs
  | [], _ => rfl
  | x :: xs', i => by
    have ih := decode_synth_str f xs' (i + 1)
    show get_list_decode "member"
        (("member", pvalText (PVal.s x)) ::
          synth_member_response
            ((xs'.enumFrom (i + 1)).map (fun e => (f e.1, PVal.s e.2))))
      = x :: xs'
    rw [decode_cons_hit, ih]
    rfl

/-- The indexed loop of the checked encoder, traced against the
structural walk: iterating over the remaining absolute indices while
looking items up in the full list succeeds and agrees. -/
theorem build_checked_aux (label : String) :
    ∀ (cur : List Item) (pre : List Item) (p : Params),
      (List.range' (pre.length + 1) cur.length).foldlM
        (fun q i =>
          match (pre ++ cur).get? (i - 1) with
          | none => none
          | some it => some (apply_list_item label i it q))
        p
        = some (build_list_params_from label (pre.length + 1) cur p)
  | [], _, _ => rfl
  | c :: cur', pre, p => by
    have hg : (pre ++ c :: cur').get? pre.length = some c := by
      rw [List.get?_append_right (Nat.le_refl pre.length)]
      simp
    have hrec := build_checked_aux label cur' (pre ++ [c])
      (apply_list_item label (pre.length + 1) c p)
    simp only [List.length_append, List.length_cons, List.length_nil,
      List.append_assoc, List.singleton_append, Nat.add_zero, Nat.zero_add] at hrec
    show ((pre.length + 1) :: List.range' (pre.length + 1 + 1) cur'.length).foldlM
        (fun q i =>
          match (pre ++ c :: cur').get? (i - 1) with
          | none => none
          | some it => some (apply_list_item label i it q)) p
      = some (build_list_params_from label (pre.length + 1) (c :: cur') p)
    rw [List.foldlM_cons]
    simp only [Nat.add_sub_cancel, hg]
    exact hrec

/-- The checked encoder always succeeds, returning exactly the result
of the total encoder. -/
theorem build_checked_eq (p : Params) (items : List Item) (label : String) :
    build_list_params_checked p items label = some (build_list_params p items label) := by
  have h := build_checked_aux label items [] p
  simpa [build_list_params_checked, build_list_params] using h

/-- Output size of the base64 chunk encoder. -/
theorem b64Chunks_length : ∀ l : List Nat, (b64Chunks l).length = 4 * ((l.length + 2) / 3)
  | [] => by simp [b64Chunks]
  | [_] => by simp [b64Chunks]
  | [_, _] => by simp [b64Chunks]
  | a :: b :: c :: rest => by
    simp only [b64Chunks, List.length_cons, b64Chunks_length rest]
    omega

/-- Output size of `b64encode`. -/
theorem b64encode_length (s : String) :
    (b64encode s).data.length = 4 * ((s.data.length + 2) / 3) := by
  show (b64Chunks (s.data.map (fun c => c.toNat % 256))).length = _
  rw [b64Chunks_length, List.length_map]

/-- Base64 encoding never returns its (nonempty) input unchanged. -/
theorem b64encode_ne {s : String} (h : s ≠ "") : b64encode s ≠ s := by
  intro he
  have hn := strLengthPos h
  have hlen : (b64encode s).data.length = s.data.length := by rw [he]
  rw [b64encode_length] at hlen
  omega

/-- Claim C2: for every list of N scalar string items and every label,
`build_list_params` adds to the parameter mapping exactly N entries,
keyed `label.member.1` through `label.member.N`, the i-th holding the
i-th item (1-based); stated for any existing mapping whose keys are not
member-shaped for the label. -/
theorem spec_c2_scalar_list_encoding (label : String) (xs : List String) (p : Params)
    (hp : ∀ kv ∈ p, NotMemberShaped label kv.1) :
    build_list_params p (xs.map Item.str) label
        = p ++ (xs.enumFrom 1).map (fun e => (memberKey label e.1, PVal.s e.2))
      ∧ (build_list_params p (xs.map Item.str) label).length = p.length + xs.length := by
  have hd : ∀ it ∈ xs.map Item.str, DictOk it := by
    intro it hit
    rcases List.mem_map.mp hit with ⟨z, _, rfl⟩
    trivial
  have hb := build_entries label (xs.map Item.str) p hp hd
  rw [list_entries_str] at hb
  refine ⟨hb, ?_⟩
  rw [hb]
  simp

/-- Witness for C2 at a concrete zone list. -/
theorem spec_c2_scalar_list_encoding_witness :
    build_list_params [] (["us-east-1b", "us-east-1c"].map Item.str) "AvailabilityZones"
        = [] ++ ((["us-east-1b", "us-east-1c"].enumFrom 1).map
            (fun e => (memberKey "AvailabilityZones" e.1, PVal.s e.2)))
      ∧ (build_list_params [] (["us-east-1b", "us-east-1c"].map Item.str)
          "AvailabilityZones").length = ([] : Params).length + 2 :=
  spec_c2_scalar_list_encoding "AvailabilityZones" ["us-east-1b", "us-east-1c"] []
    (by intro kv hkv; simp at hkv)

/-- Claim C3: for every list of dictionary items and every label, the
encoder adds, for each field k of the i-th dictionary (1-based), an
entry keyed `label.member.i.k` holding that field's value, and no other
entries; stated for any existing mapping whose keys are not
member-shaped for the label, with the dictionaries duplicate-free. -/
theorem spec_c3_dict_list_encoding (label : String) (ds : List (List (String × PVal)))
    (p : Params) (hp : ∀ kv ∈ p, NotMemberShaped label kv.1)
    (hnd : ∀ d ∈ ds, (d.map Prod.fst).Nodup) :
    build_list_params p (ds.map Item.dict) label
      = p ++ ((ds.enumFrom 1).map
          (fun e => e.2.map (fun kv => (memberKey label e.1 ++ "." ++ kv.1, kv.2)))).flatten := by
  have hd : ∀ it ∈ ds.map Item.dict, DictOk it := by
    intro it hit
    rcases List.mem_map.mp hit with ⟨d, hd', rfl⟩
    exact hnd d hd'
  have hb := build_entries label (ds.map Item.dict) p hp hd
  rw [list_entries_dict] at hb
  exact hb

/-- Witness for C3 at a concrete load-balancer listener dictionary. -/
theorem spec_c3_dict_list_encoding_witness :
    build_list_params []
        ([[("Protocol", PVal.s "HTTP"), ("LoadBalancerPort", PVal.s "80")]].map Item.dict)
        "Listeners"
      = [] ++ (([[("Protocol", PVal.s "HTTP"), ("LoadBalancerPort", PVal.s "80")]].enumFrom 1).map
          (fun e => e.2.map (fun kv => (memberKey "Listeners" e.1 ++ "." ++ kv.1, kv.2)))).flatten :=
  spec_c3_dict_list_encoding "Listeners"
    [[("Protocol", PVal.s "HTTP"), ("LoadBalancerPort", PVal.s "80")]] []
    (by intro kv hkv; simp at hkv)
    (by intro d hd'; simp at hd'; rw [hd']; decide)

/-- Claim C4: encoding an ordered sequence of availability zones under
the `AvailabilityZones` label and decoding a synthetic response that
echoes those entries as `member` elements yields the original ordered
sequence. -/
theorem spec_c4_zone_roundtrip (zones : List String) :
    get_list_decode "member"
      (synth_member_response
        (build_list_params [] (zones.map Item.str) "AvailabilityZones")) = zones := by
  have hd : ∀ it ∈ zones.map Item.str, DictOk it := by
    intro it hit
    rcases List.mem_map.mp hit with ⟨z, _, rfl⟩
    trivial
  have hb := build_entries "AvailabilityZones" (zones.map Item.str) []
    (by intro kv hkv; simp at hkv) hd
  rw [list_entries_str] at hb
  rw [hb, List.nil_append]
  exact decode_synth_str (fun n => memberKey "AvailabilityZones" n) zones 1

/-- Claim C7: the encoding side is total; in particular the only
partial primitive it uses, the list indexing `items[i-1]` inside
`build_list_params`, always succeeds, so the checked encoder never
fails and returns exactly the total encoder's delegation mapping. -/
theorem spec_c7_encoder_total (p : Params) (items : List Item) (label : String) :
    build_list_params_checked p items label = some (build_list_params p items label) :=
  build_checked_eq p items label

/-- Claim C5: the mapping from client method to wire action name is a
fixed table, independent of all inputs; in particular group creation
issues `CreateAutoScalingGroup` and group deletion issues
`DeleteAutoScalingGroup`. -/
theorem spec_c5_action_table :
    (∀ g, (create_auto_scaling_group g).action = "CreateAutoScalingGroup")
    ∧ (∀ n, (delete_auto_scaling_group n).action = "DeleteAutoScalingGroup")
    ∧ (∀ lc, (create_launch_configuration lc).action = "CreateLaunchConfiguration")
    ∧ (∀ sp, (create_scaling_policy sp).action = "PutScalingPolicy")
    ∧ (∀ n, (delete_launch_configuration n).action = "DeleteLaunchConfiguration")
    ∧ (∀ a b c, (get_all_groups a b c).action = "DescribeAutoScalingGroups")
    ∧ (∀ a b c, (get_all_launch_configurations a b c).action = "DescribeLaunchConfigurations")
    ∧ (∀ a b c d, (get_all_activities a b c d).action = "DescribeScalingActivities")
    ∧ (∀ a b, (delete_scheduled_action a b).action = "DeleteScheduledAction")
    ∧ (∀ a b, (terminate_instance a b).action = "TerminateInstanceInAutoScalingGroup")
    ∧ (∀ a b, (delete_policy a b).action = "DeletePolicy")
    ∧ get_all_adjustment_types.action = "DescribeAdjustmentTypes"
    ∧ (∀ a b c, (get_all_autoscaling_instances a b c).action = "DescribeAutoScalingInstances")
    ∧ get_all_metric_collection_types.action = "DescribeMetricCollectionTypes"
    ∧ (∀ a b c d, (get_all_policies a b c d).action = "DescribePolicies")
    ∧ get_all_scaling_process_types.action = "DescribeScalingProcessTypes"
    ∧ (∀ a b, (suspend_processes a b).action = "SuspendProcesses")
    ∧ (∀ a b, (resume_processes a b).action = "ResumeProcesses")
    ∧ (∀ a b c d e f, (create_scheduled_group_action a b c d e f).action
        = "PutScheduledUpdateGroupAction")
    ∧ (∀ a b c d e f, (get_all_scheduled_actions a b c d e f).action
        = "DescribeScheduledActions")
    ∧ (∀ a b, (disable_metrics_collection a b).action = "DisableMetricsCollection")
    ∧ (∀ a b c, (enable_metrics_collection a b c).action = "EnableMetricsCollection")
    ∧ (∀ a b c, (execute_policy a b c).action = "ExecutePolicy")
    ∧ (∀ a b c, (set_instance_health a b c).action = "SetInstanceHealth") :=
  ⟨fun _ => rfl, fun _ => rfl, fun _ => rfl, fun _ => rfl, fun _ => rfl,
    fun _ _ _ => rfl, fun _ _ _ => rfl, fun _ _ _ _ => rfl, fun _ _ => rfl,
    fun _ _ => rfl, fun _ _ => rfl, rfl, fun _ _ _ => rfl, rfl,
    fun _ _ _ _ => rfl, rfl, fun _ _ => rfl, fun _ _ => rfl,
    fun _ _ _ _ _ _ => rfl, fun _ _ _ _ _ _ => rfl, fun _ _ => rfl,
    fun _ _ _ => rfl, fun _ _ _ => rfl, fun _ _ _ => rfl⟩

/-- Claim C6: every operation decodes its response in exactly one of
three fixed shapes — a single typed object, an ordered list of typed
objects collected from elements tagged `member`, or a bare boolean
status — and the shape is the same for all inputs of the operation;
every list-returning operation uses the tag `member`. -/
theorem spec_c6_response_shapes :
    (∀ g, (create_auto_scaling_group g).shape = RespShape.obj "Request")
    ∧ (∀ n, (delete_auto_scaling_group n).shape = RespShape.obj "Request")
    ∧ (∀ lc, (create_launch_configuration lc).shape = RespShape.obj "Request")
    ∧ (∀ sp, (create_scaling_policy sp).shape = RespShape.obj "Request")
    ∧ (∀ n, (delete_launch_configuration n).shape = RespShape.obj "Request")
    ∧ (∀ a b c, (get_all_groups a b c).shape = RespShape.listOf "member" "AutoScalingGroup")
    ∧ (∀ a b c, (get_all_launch_configurations a b c).shape
        = RespShape.listOf "member" "LaunchConfiguration")
    ∧ (∀ a b c d, (get_all_activities a b c d).shape = RespShape.listOf "member" "Activity")
    ∧ (∀ a b, (delete_scheduled_action a b).shape = RespShape.status)
    ∧ (∀ a b, (terminate_instance a b).shape = RespShape.obj "Activity")
    ∧ (∀ a b, (delete_policy a b).shape = RespShape.status)
    ∧ get_all_adjustment_types.shape = RespShape.listOf "member" "AdjustmentType"
    ∧ (∀ a b c, (get_all_autoscaling_instances a b c).shape
        = RespShape.listOf "member" "Instance")
    ∧ get_all_metric_collection_types.shape = RespShape.obj "MetricCollectionTypes"
    ∧ (∀ a b c d, (get_all_policies a b c d).shape = RespShape.listOf "member" "ScalingPolicy")
    ∧ get_all_scaling_process_types.shape = RespShape.listOf "member" "ProcessType"
    ∧ (∀ a b, (suspend_processes a b).shape = RespShape.status)
    ∧ (∀ a b, (resume_processes a b).shape = RespShape.status)
    ∧ (∀ a b c d e f, (create_scheduled_group_action a b c d e f).shape = RespShape.status)
    ∧ (∀ a b c d e f, (get_all_scheduled_actions a b c d e f).shape
        = RespShape.listOf "member" "ScheduledUpdateGroupAction")
    ∧ (∀ a b, (disable_metrics_collection a b).shape = RespShape.status)
    ∧ (∀ a b c, (enable_metrics_collection a b c).shape = RespShape.status)
    ∧ (∀ a b c, (execute_policy a b c).shape = RespShape.status)
    ∧ (∀ a b c, (set_instance_health a b c).shape = RespShape.status) :=
  ⟨fun _ => rfl, fun _ => rfl, fun _ => rfl, fun _ => rfl, fun _ => rfl,
    fun _ _ _ => rfl, fun _ _ _ => rfl, fun _ _ _ _ => rfl, fun _ _ => rfl,
    fun _ _ => rfl, fun _ _ => rfl, rfl, fun _ _ _ => rfl, rfl,
    fun _ _ _ _ => rfl, rfl, fun _ _ => rfl, fun _ _ => rfl,
    fun _ _ _ _ _ _ => rfl, fun _ _ _ _ _ _ => rfl, fun _ _ => rfl,
    fun _ _ _ => rfl, fun _ _ _ => rfl, fun _ _ _ => rfl⟩

/-- Claim C9: the list encoder only adds entries whose keys are
member-shaped for its label, and every binding present before the call
is still found unchanged afterwards, provided no pre-existing key is
member-shaped for that label. -/
theorem spec_c9_frame_property (label : String) (items : List Item) (p : Params) :
    (∀ kv ∈ build_list_params p items label,
        kv ∈ p ∨ ∃ t : String, kv.1 = label ++ ".member." ++ t)
    ∧ ((∀ kv ∈ p, NotMemberShaped label kv.1) →
        ∀ k v, plookup p k = some v → plookup (build_list_params p items label) k = some v) := by
  constructor
  · intro kv hkv
    exact mem_build_from items 1 p hkv
  · intro hp k v hkv
    rw [plookup_build_ne (hp (k, v) (plookup_some_mem hkv)) p items]
    exact hkv

/-- Witness for C9: a pre-existing binding survives a concrete
encoding call. -/
theorem spec_c9_frame_property_witness :
    plookup
        (build_list_params [("AutoScalingGroupName", PVal.s "web-group")]
          [Item.str "GroupMinSize"] "Metrics")
        "AutoScalingGroupName"
      = some (PVal.s "web-group") := by
  refine (spec_c9_frame_property "Metrics" [Item.str "GroupMinSize"]
    [("AutoScalingGroupName", PVal.s "web-group")]).2 ?_ "AutoScalingGroupName"
    (PVal.s "web-group") (by decide)
  intro kv hkv
  have hkv' : kv = ("AutoScalingGroupName", PVal.s "web-group") := by simpa using hkv
  rw [hkv']
  exact notMemberShaped_head "Metrics" "AutoScalingGroupName" 1 (by decide) (by decide)

/-- Claim C8 (amended): an item that is neither a dictionary nor a
string produces no entry yet consumes its positional index — later
items keep their original 1-based positions and the skipped index never
appears; when no dictionary items are present, fewer than N entries are
produced for an N-item list. -/
theorem spec_c8_skipped_item (label : String) (items : List Item) (p : Params) (j : Nat)
    (hp : ∀ kv ∈ p, NotMemberShaped label kv.1)
    (hd : ∀ it ∈ items, DictOk it)
    (hj : items.get? j = some Item.other) :
    build_list_params p items label = p ++ list_entries label 1 items
    ∧ plookup (build_list_params p items label) (memberKey label (j + 1)) = none
    ∧ ((∀ it ∈ items, ∀ d, it ≠ Item.dict d) →
        (list_entries label 1 items).length < items.length) := by
  have hb := build_entries label items p hp hd
  refine ⟨hb, ?_, fun hnd => list_entries_skip_lt label items 1 j hj hnd⟩
  rw [hb]
  have hpn : plookup p (memberKey label (j + 1)) = none :=
    plookup_none_of_all_ne (fun kv hkv => hp kv hkv (decRepr (j + 1)))
  rw [plookup_append_none (list_entries label 1 items) hpn]
  apply plookup_none_of_all_ne
  intro kv hkv
  rcases mem_list_entries items 1 hkv with ⟨ℓ, it, hg, hm⟩
  rcases item_entries_key hm with hk | ⟨t, hk⟩
  · rw [hk]
    intro heq
    have hℓj : ℓ = j := by
      have := memberKey_inj heq
      omega
    have hio : it = Item.other := by
      rw [hℓj] at hg
      have := hg.symm.trans hj
      injection this
    rw [hio] at hm
    simp [item_entries] at hm
  · rw [hk]
    exact (memberKey_ne_field label (j + 1) (1 + ℓ) t).symm

/-- Counterexample to C8 as stated: with a dictionary among the other
items, a 2-item list containing one skipped item still yields 3
entries, not fewer than 2. -/
theorem spec_c8_counterexample :
    (build_list_params []
        [Item.other,
          Item.dict [("Protocol", PVal.s "HTTP"), ("LoadBalancerPort", PVal.s "80"),
            ("InstancePort", PVal.s "80")]]
        "LoadBalancerNames").length = 3
    ∧ ([Item.other,
          Item.dict [("Protocol", PVal.s "HTTP"), ("LoadBalancerPort", PVal.s "80"),
            ("InstancePort", PVal.s "80")]] : List Item).length = 2 := by
  constructor
  · decide
  · decide

/-- Concrete item list with a skipped middle element. -/
def c8Items : List Item := [Item.str "proc-a", Item.other, Item.str "proc-b"]

/-- Witness for the amended C8 at a concrete list. -/
theorem spec_c8_skipped_item_witness :
    build_list_params [] c8Items "ScalingProcesses"
        = [] ++ list_entries "ScalingProcesses" 1 c8Items
      ∧ plookup (build_list_params [] c8Items "ScalingProcesses")
          (memberKey "ScalingProcesses" 2) = none
      ∧ (list_entries "ScalingProcesses" 1 c8Items).length < c8Items.length := by
  have H := spec_c8_skipped_item "ScalingProcesses" c8Items [] 1
    (by intro kv hkv; simp at hkv)
    (by intro it hit; fin_cases hit <;> trivial)
    (by decide)
  exact ⟨H.1, H.2.1, H.2.2 (by intro it hit d; fin_cases hit <;> simp)⟩

/-- Claim C10: with truthy `user_data`, `create_launch_configuration`
sends `UserData` as the base64 encoding of the field — never the raw
value — and with falsy `user_data` it sends no `UserData` parameter. -/
theorem spec_c10_user_data_base64 (lc : LaunchConfiguration) :
    (∀ ud : String, lc.user_data = some ud → ud ≠ "" →
        plookup (create_launch_configuration lc).params "UserData"
            = some (PVal.s (b64encode ud))
          ∧ b64encode ud ≠ ud)
    ∧ (truthyOptStr lc.user_data = false →
        plookup (create_launch_configuration lc).params "UserData" = none) := by
  constructor
  · intro ud hud hne
    refine ⟨?_, b64encode_ne hne⟩
    have ht : truthyOptStr lc.user_data = true := by
      rw [hud]
      simp [truthyOptStr, hne]
    simp only [create_launch_configuration]
    rw [if_pos ht]
    refine Eq.trans
      (plookup_ite (plookup_pset_ne "InstanceMonitoring.member.Enabled" "UserData"
        (by decide) _ _)) ?_
    rw [plookup_setList_ne (notMemberShaped_head "SecurityGroups" "UserData" 1 (by decide) (by decide)) _ _,
      plookup_setList_ne (notMemberShaped_head "BlockDeviceMappings" "UserData" 1 (by decide) (by decide)) _ _,
      plookup_setOptStr_ne "RamdiskId" "UserData" (by decide) _ _,
      plookup_setOptStr_ne "KernelId" "UserData" (by decide) _ _,
      plookup_pset_self]
    rw [hud]
    rfl
  · intro hf
    simp only [create_launch_configuration]
    rw [if_neg (by simp [hf] : ¬truthyOptStr lc.user_data = true)]
    refine Eq.trans
      (plookup_ite (plookup_pset_ne "InstanceMonitoring.member.Enabled" "UserData"
        (by decide) _ _)) ?_
    rw [plookup_setList_ne (notMemberShaped_head "SecurityGroups" "UserData" 1 (by decide) (by decide)) _ _,
      plookup_setList_ne (notMemberShaped_head "BlockDeviceMappings" "UserData" 1 (by decide) (by decide)) _ _,
      plookup_setOptStr_ne "RamdiskId" "UserData" (by decide) _ _,
      plookup_setOptStr_ne "KernelId" "UserData" (by decide) _ _,
      plookup_setOptStr_ne "KeyName" "UserData" (by decide) _ _,
      plookup_cons_ne "ImageId" "UserData" (by decide),
      plookup_cons_ne "LaunchConfigurationName" "UserData" (by decide),
      plookup_cons_ne "InstanceType" "UserData" (by decide)]
    rfl

/-- Concrete launch configuration with truthy user data. -/
def lc0 : LaunchConfiguration :=
  { image_id := "ami-1", name := "lc-1", instance_type := "m1.small",
    key_name := none, user_data := some "#!", kernel_id := none,
    ramdisk_id := none, block_device_mappings := [], security_groups := [],
    instance_monitoring := false }

/-- Concrete launch configuration with absent user data. -/
def lc1 : LaunchConfiguration :=
  { image_id := "ami-1", name := "lc-1", instance_type := "m1.small",
    key_name := none, user_data := none, kernel_id := none,
    ramdisk_id := none, block_device_mappings := [], security_groups := [],
    instance_monitoring := false }

/-- Witness for C10 at concrete launch configurations. -/
theorem spec_c10_user_data_base64_witness :
    (plookup (create_launch_configuration lc0).params "UserData"
        = some (PVal.s (b64encode "#!"))
      ∧ b64encode "#!" ≠ "#!")
    ∧ plookup (create_launch_configuration lc1).params "UserData" = none :=
  ⟨(spec_c10_user_data_base64 lc0).1 "#!" rfl (by decide),
    (spec_c10_user_data_base64 lc1).2 rfl⟩

/-- A member-shaped key differs from a literal key whose first `n`
characters differ from the label prefix's. -/
theorem memPreNeLit (label a : String) (n : Nat) (t : String)
    (hn : n ≤ (label ++ ".member.").data.length)
    (h : a.data.take n ≠ (label ++ ".member.").data.take n) :
    label ++ ".member." ++ t ≠ a :=
  (litNeAppend a (label ++ ".member.") n hn h t).symm

/-- Symmetric form of `memPreNeLit`. -/
theorem litNeMemPre (label a : String) (n : Nat) (t : String)
    (hn : n ≤ (label ++ ".member.").data.length)
    (h : a.data.take n ≠ (label ++ ".member.").data.take n) :
    a ≠ label ++ ".member." ++ t :=
  litNeAppend a (label ++ ".member.") n hn h t

/-- A member-shaped key of one label is not member-shaped for another
label whose prefix differs within the first `n` characters. -/
theorem memPreNotShaped (label2 label1 : String) (n : Nat) (t : String)
    (h1 : n ≤ (label1 ++ ".member.").data.length)
    (h2 : n ≤ (label2 ++ ".member.").data.length)
    (h : (label1 ++ ".member.").data.take n ≠ (label2 ++ ".member.").data.take n) :
    NotMemberShaped label2 (label1 ++ ".member." ++ t) :=
  notMemberShaped_append label2 (label1 ++ ".member.") n t h1 h2 h

/-- Claim C1 (amended): for every operation, an optional parameter
whose value is falsy or absent is omitted entirely from the encoded
parameter mapping, except for the three deviations visible in the
source: `create_scaling_policy` includes `Cooldown` whenever it is not
`None` (even when it is the falsy `0`), `get_all_launch_configurations`
includes `MaxRecords` whenever it is not `None`, and
`set_instance_health` (like `terminate_instance` with its
`ShouldDecrementDesiredCapacity`) always sends its boolean flag
explicitly, as `'true'`/`'false'`. -/
theorem spec_c1_falsy_optionals_omitted :
    (∀ g : AutoScalingGroup, truthyOptInt g.desired_capacity = false →
      plookup (create_auto_scaling_group g).params "DesiredCapacity" = none)
    ∧ (∀ g : AutoScalingGroup, truthyOptStr g.vpc_zone_identifier = false →
      plookup (create_auto_scaling_group g).params "VPCZoneIdentifier" = none)
    ∧ (∀ g : AutoScalingGroup, truthyOptInt g.health_check_period = false →
      plookup (create_auto_scaling_group g).params "HealthCheckGracePeriod" = none)
    ∧ (∀ g : AutoScalingGroup, truthyOptStr g.health_check_type = false →
      plookup (create_auto_scaling_group g).params "HealthCheckType" = none)
    ∧ (∀ g : AutoScalingGroup, truthyOptInt g.default_cooldown = false →
      plookup (create_auto_scaling_group g).params "DefaultCooldown" = none)
    ∧ (∀ g : AutoScalingGroup, truthyOptStr g.placement_group = false →
      plookup (create_auto_scaling_group g).params "PlacementGroup" = none)
    ∧ (∀ g : AutoScalingGroup, g.load_balancers = [] → ∀ t : String,
      plookup (create_auto_scaling_group g).params
        ("LoadBalancerNames" ++ ".member." ++ t) = none)
    ∧ (∀ lc : LaunchConfiguration, truthyOptStr lc.key_name = false →
      plookup (create_launch_configuration lc).params "KeyName" = none)
    ∧ (∀ lc : LaunchConfiguration, truthyOptStr lc.user_data = false →
      plookup (create_launch_configuration lc).params "UserData" = none)
    ∧ (∀ lc : LaunchConfiguration, truthyOptStr lc.kernel_id = false →
      plookup (create_launch_configuration lc).params "KernelId" = none)
    ∧ (∀ lc : LaunchConfiguration, truthyOptStr lc.ramdisk_id = false →
      plookup (create_launch_configuration lc).params "RamdiskId" = none)
    ∧ (∀ lc : LaunchConfiguration, lc.block_device_mappings = [] → ∀ t : String,
      plookup (create_launch_configuration lc).params
        ("BlockDeviceMappings" ++ ".member." ++ t) = none)
    ∧ (∀ lc : LaunchConfiguration, lc.security_groups = [] → ∀ t : String,
      plookup (create_launch_configuration lc).params
        ("SecurityGroups" ++ ".member." ++ t) = none)
    ∧ (∀ lc : LaunchConfiguration, lc.instance_monitoring = false →
      plookup (create_launch_configuration lc).params
        "InstanceMonitoring.member.Enabled" = none)
    ∧ (∀ (names : List String) (mr : Option Int) (nt : Option String),
      truthyOptInt mr = false →
      plookup (get_all_groups names mr nt).params "MaxRecords" = none)
    ∧ (∀ (names : List String) (mr : Option Int) (nt : Option String),
      truthyOptStr nt = false →
      plookup (get_all_groups names mr nt).params "NextToken" = none)
    ∧ (∀ (names : List String) (mr : Option Int) (nt : Option String),
      names = [] → ∀ t : String,
      plookup (get_all_groups names mr nt).params
        ("AutoScalingGroupNames" ++ ".member." ++ t) = none)
    ∧ (∀ (names : List String) (mr : Option Int) (nt : Option String),
      names = [] → ∀ t : String,
      plookup (get_all_launch_configurations names mr nt).params
        ("LaunchConfigurationNames" ++ ".member." ++ t) = none)
    ∧ (∀ (names : List String) (mr : Option Int) (nt : Option String),
      truthyOptStr nt = false →
      plookup (get_all_launch_configurations names mr nt).params "NextToken" = none)
    ∧ (∀ (ag : GroupOrName) (aids : List String) (mr : Option Int) (nt : Option String),
      truthyOptInt mr = false →
      plookup (get_all_activities ag aids mr nt).params "MaxRecords" = none)
    ∧ (∀ (ag : GroupOrName) (aids : List String) (mr : Option Int) (nt : Option String),
      truthyOptStr nt = false →
      plookup (get_all_activities ag aids mr nt).params "NextToken" = none)
    ∧ (∀ (ag : GroupOrName) (aids : List String) (mr : Option Int) (nt : Option String),
      aids = [] → ∀ t : String,
      plookup (get_all_activities ag aids mr nt).params
        ("ActivityIds" ++ ".member." ++ t) = none)
    ∧ (∀ (n : String) (ag : Option String), truthyOptStr ag = false →
      plookup (delete_scheduled_action n ag).params "AutoScalingGroupName" = none)
    ∧ (∀ (n : String) (ag : Option String), truthyOptStr ag = false →
      plookup (delete_policy n ag).params "AutoScalingGroupName" = none)
    ∧ (∀ (ids : List String) (mr : Option Int) (nt : Option String),
      ids = [] → ∀ t : String,
      plookup (get_all_autoscaling_instances ids mr nt).params
        ("InstanceIds" ++ ".member." ++ t) = none)
    ∧ (∀ (ids : List String) (mr : Option Int) (nt : Option String),
      truthyOptInt mr = false →
      plookup (get_all_autoscaling_instances ids mr nt).params "MaxRecords" = none)
    ∧ (∀ (ids : List String) (mr : Option Int) (nt : Option String),
      truthyOptStr nt = false →
      plookup (get_all_autoscaling_instances ids mr nt).params "NextToken" = none)
    ∧ (∀ (ag : Option String) (pn : List String) (mr : Option Int) (nt : Option String),
      truthyOptStr ag = false →
      plookup (get_all_policies ag pn mr nt).params "AutoScalingGroupName" = none)
    ∧ (∀ (ag : Option String) (pn : List String) (mr : Option Int) (nt : Option String),
      pn = [] → ∀ t : String,
      plookup (get_all_policies ag pn mr nt).params
        ("PolicyNames" ++ ".member." ++ t) = none)
    ∧ (∀ (ag : Option String) (pn : List String) (mr : Option Int) (nt : Option String),
      truthyOptInt mr = false →
      plookup (get_all_policies ag pn mr nt).params "MaxRecords" = none)
    ∧ (∀ (ag : Option String) (pn : List String) (mr : Option Int) (nt : Option String),
      truthyOptStr nt = false →
      plookup (get_all_policies ag pn mr nt).params "NextToken" = none)
    ∧ (∀ (ag : String) (sp : List String), sp = [] → ∀ t : String,
      plookup (suspend_processes ag sp).params
        ("ScalingProcesses" ++ ".member." ++ t) = none)
    ∧ (∀ (ag : String) (sp : List String), sp = [] → ∀ t : String,
      plookup (resume_processes ag sp).params
        ("ScalingProcesses" ++ ".member." ++ t) = none)
    ∧ (∀ (ag nm : String) (tm : Datetime) (dc ms mx : Option Int),
      truthyOptInt dc = false →
      plookup (create_scheduled_group_action ag nm tm dc ms mx).params
        "DesiredCapacity" = none)
    ∧ (∀ (ag nm : String) (tm : Datetime) (dc ms mx : Option Int),
      truthyOptInt ms = false →
      plookup (create_scheduled_group_action ag nm tm dc ms mx).params "MinSize" = none)
    ∧ (∀ (ag nm : String) (tm : Datetime) (dc ms mx : Option Int),
      truthyOptInt mx = false →
      plookup (create_scheduled_group_action ag nm tm dc ms mx).params "MaxSize" = none)
    ∧ (∀ (ag st et : Option String) (sa : List String) (mr : Option Int) (nt : Option String),
      truthyOptStr ag = false →
      plookup (get_all_scheduled_actions ag st et sa mr nt).params
        "AutoScalingGroupName" = none)
    ∧ (∀ (ag st et : Option String) (sa : List String) (mr : Option Int) (nt : Option String),
      sa = [] → ∀ t : String,
      plookup (get_all_scheduled_actions ag st et sa mr nt).params
        ("ScheduledActionNames" ++ ".member." ++ t) = none)
    ∧ (∀ (ag st et : Option String) (sa : List String) (mr : Option Int) (nt : Option String),
      truthyOptInt mr = false →
      plookup (get_all_scheduled_actions ag st et sa mr nt).params "MaxRecords" = none)
    ∧ (∀ (ag st et : Option String) (sa : List String) (mr : Option Int) (nt : Option String),
      truthyOptStr nt = false →
      plookup (get_all_scheduled_actions ag st et sa mr nt).params "NextToken" = none)
    ∧ (∀ (ag : String) (m : List String), m = [] → ∀ t : String,
      plookup (disable_metrics_collection ag m).params
        ("Metrics" ++ ".member." ++ t) = none)
    ∧ (∀ (ag gr : String) (m : List String), m = [] → ∀ t : String,
      plookup (enable_metrics_collection ag gr m).params
        ("Metrics" ++ ".member." ++ t) = none)
    ∧ (∀ (pn : String) (ag : Option String) (hc : Bool), truthyOptStr ag = false →
      plookup (execute_policy pn ag hc).params "AutoScalingGroupName" = none)
    ∧ (∀ (pn : String) (ag : Option String) (hc : Bool), hc = false →
      plookup (execute_policy pn ag hc).params "HonorCooldown" = none) := by
  refine ⟨?_, ?_, ?_, ?_, ?_, ?_, ?_, ?_, ?_, ?_, ?_, ?_, ?_, ?_, ?_, ?_, ?_, ?_, ?_,
    ?_, ?_, ?_, ?_, ?_, ?_, ?_, ?_, ?_, ?_, ?_, ?_, ?_, ?_, ?_, ?_, ?_, ?_, ?_, ?_,
    ?_, ?_, ?_, ?_, ?_⟩
  · intro g h
    simp only [create_auto_scaling_group, update_group]
    refine Eq.trans (plookup_ite (plookup_setList_ne
      (notMemberShaped_head "LoadBalancerNames" "DesiredCapacity" 1 (by decide) (by decide)) _ _)) ?_
    rw [plookup_setOptStr_ne "PlacementGroup" "DesiredCapacity" (by decide) _ _,
      plookup_setOptInt_ne "DefaultCooldown" "DesiredCapacity" (by decide) _ _,
      plookup_setOptStr_ne "HealthCheckType" "DesiredCapacity" (by decide) _ _,
      plookup_setOptInt_ne "HealthCheckGracePeriod" "DesiredCapacity" (by decide) _ _,
      plookup_setOptStr_ne "VPCZoneIdentifier" "DesiredCapacity" (by decide) _ _,
      setOptInt_falsy h,
      plookup_build_ne (notMemberShaped_head "AvailabilityZones" "DesiredCapacity" 1
        (by decide) (by decide)) _ _,
      plookup_cons_ne "AutoScalingGroupName" "DesiredCapacity" (by decide),
      plookup_cons_ne "LaunchConfigurationName" "DesiredCapacity" (by decide),
      plookup_cons_ne "MinSize" "DesiredCapacity" (by decide),
      plookup_cons_ne "MaxSize" "DesiredCapacity" (by decide)]
    rfl
  · intro g h
    simp only [create_auto_scaling_group, update_group]
    refine Eq.trans (plookup_ite (plookup_setList_ne
      (notMemberShaped_head "LoadBalancerNames" "VPCZoneIdentifier" 1 (by decide) (by decide)) _ _)) ?_
    rw [plookup_setOptStr_ne "PlacementGroup" "VPCZoneIdentifier" (by decide) _ _,
      plookup_setOptInt_ne "DefaultCooldown" "VPCZoneIdentifier" (by decide) _ _,
      plookup_setOptStr_ne "HealthCheckType" "VPCZoneIdentifier" (by decide) _ _,
      plookup_setOptInt_ne "HealthCheckGracePeriod" "VPCZoneIdentifier" (by decide) _ _,
      setOptStr_falsy h,
      plookup_setOptInt_ne "DesiredCapacity" "VPCZoneIdentifier" (by decide) _ _,
      plookup_build_ne (notMemberShaped_head "AvailabilityZones" "VPCZoneIdentifier" 1
        (by decide) (by decide)) _ _,
      plookup_cons_ne "AutoScalingGroupName" "VPCZoneIdentifier" (by decide),
      plookup_cons_ne "LaunchConfigurationName" "VPCZoneIdentifier" (by decide),
      plookup_cons_ne "MinSize" "VPCZoneIdentifier" (by decide),
      plookup_cons_ne "MaxSize" "VPCZoneIdentifier" (by decide)]
    rfl
  · intro g h
    simp only [create_auto_scaling_group, update_group]
    refine Eq.trans (plookup_ite (plookup_setList_ne
      (notMemberShaped_head "LoadBalancerNames" "HealthCheckGracePeriod" 1 (by decide) (by decide)) _ _)) ?_
    rw [plookup_setOptStr_ne "PlacementGroup" "HealthCheckGracePeriod" (by decide) _ _,
      plookup_setOptInt_ne "DefaultCooldown" "HealthCheckGracePeriod" (by decide) _ _,
      plookup_setOptStr_ne "HealthCheckType" "HealthCheckGracePeriod" (by decide) _ _,
      setOptInt_falsy h,
      plookup_setOptStr_ne "VPCZoneIdentifier" "HealthCheckGracePeriod" (by decide) _ _,
      plookup_setOptInt_ne "DesiredCapacity" "HealthCheckGracePeriod" (by decide) _ _,
      plookup_build_ne (notMemberShaped_head "AvailabilityZones" "HealthCheckGracePeriod" 1
        (by decide) (by decide)) _ _,
      plookup_cons_ne "AutoScalingGroupName" "HealthCheckGracePeriod" (by decide),
      plookup_cons_ne "LaunchConfigurationName" "HealthCheckGracePeriod" (by decide),
      plookup_cons_ne "MinSize" "HealthCheckGracePeriod" (by decide),
      plookup_cons_ne "MaxSize" "HealthCheckGracePeriod" (by decide)]
    rfl
  · intro g h
    simp only [create_auto_scaling_group, update_group]
    refine Eq.trans (plookup_ite (plookup_setList_ne
      (notMemberShaped_head "LoadBalancerNames" "HealthCheckType" 1 (by decide) (by decide)) _ _)) ?_
    rw [plookup_setOptStr_ne "PlacementGroup" "HealthCheckType" (by decide) _ _,
      plookup_setOptInt_ne "DefaultCooldown" "HealthCheckType" (by decide) _ _,
      setOptStr_falsy h,
      plookup_setOptInt_ne "HealthCheckGracePeriod" "HealthCheckType" (by decide) _ _,
      plookup_setOptStr_ne "VPCZoneIdentifier" "HealthCheckType" (by decide) _ _,
      plookup_setOptInt_ne "DesiredCapacity" "HealthCheckType" (by decide) _ _,
      plookup_build_ne (notMemberShaped_head "AvailabilityZones" "HealthCheckType" 1
        (by decide) (by decide)) _ _,
      plookup_cons_ne "AutoScalingGroupName" "HealthCheckType" (by decide),
      plookup_cons_ne "LaunchConfigurationName" "HealthCheckType" (by decide),
      plookup_cons_ne "MinSize" "HealthCheckType" (by decide),
      plookup_cons_ne "MaxSize" "HealthCheckType" (by decide)]
    rfl
  · intro g h
    simp only [create_auto_scaling_group, update_group]
    refine Eq.trans (plookup_ite (plookup_setList_ne
      (notMemberShaped_head "LoadBalancerNames" "DefaultCooldown" 1 (by decide) (by decide)) _ _)) ?_
    rw [plookup_setOptStr_ne "PlacementGroup" "DefaultCooldown" (by decide) _ _,
      setOptInt_falsy h,
      plookup_setOptStr_ne "HealthCheckType" "DefaultCooldown" (by decide) _ _,
      plookup_setOptInt_ne "HealthCheckGracePeriod" "DefaultCooldown" (by decide) _ _,
      plookup_setOptStr_ne "VPCZoneIdentifier" "DefaultCooldown" (by decide) _ _,
      plookup_setOptInt_ne "DesiredCapacity" "DefaultCooldown" (by decide) _ _,
      plookup_build_ne (notMemberShaped_head "AvailabilityZones" "DefaultCooldown" 1
        (by decide) (by decide)) _ _,
      plookup_cons_ne "AutoScalingGroupName" "DefaultCooldown" (by decide),
      plookup_cons_ne "LaunchConfigurationName" "DefaultCooldown" (by decide),
      plookup_cons_ne "MinSize" "DefaultCooldown" (by decide),
      plookup_cons_ne "MaxSize" "DefaultCooldown" (by decide)]
    rfl
  · intro g h
    simp only [create_auto_scaling_group, update_group]
    refine Eq.trans (plookup_ite (plookup_setList_ne
      (notMemberShaped_head "LoadBalancerNames" "PlacementGroup" 1 (by decide) (by decide)) _ _)) ?_
    rw [setOptStr_falsy h,
      plookup_setOptInt_ne "DefaultCooldown" "PlacementGroup" (by decide) _ _,
      plookup_setOptStr_ne "HealthCheckType" "PlacementGroup" (by decide) _ _,
      plookup_setOptInt_ne "HealthCheckGracePeriod" "PlacementGroup" (by decide) _ _,
      plookup_setOptStr_ne "VPCZoneIdentifier" "PlacementGroup" (by decide) _ _,
      plookup_setOptInt_ne "DesiredCapacity" "PlacementGroup" (by decide) _ _,
      plookup_build_ne (notMemberShaped_head "AvailabilityZones" "PlacementGroup" 1
        (by decide) (by decide)) _ _,
      plookup_cons_ne "AutoScalingGroupName" "PlacementGroup" (by decide),
      plookup_cons_ne "LaunchConfigurationName" "PlacementGroup" (by decide),
      plookup_cons_ne "MinSize" "PlacementGroup" (by decide),
      plookup_cons_ne "MaxSize" "PlacementGroup" (by decide)]
    rfl
  · intro g h t
    simp only [create_auto_scaling_group, update_group, h, List.map_nil, setListParams_empty]
    refine Eq.trans (plookup_ite rfl) ?_
    rw [plookup_setOptStr_ne "PlacementGroup" _
        (memPreNeLit "LoadBalancerNames" "PlacementGroup" 1 t (by decide) (by decide)) _ _,
      plookup_setOptInt_ne "DefaultCooldown" _
        (memPreNeLit "LoadBalancerNames" "DefaultCooldown" 1 t (by decide) (by decide)) _ _,
      plookup_setOptStr_ne "HealthCheckType" _
        (memPreNeLit "LoadBalancerNames" "HealthCheckType" 1 t (by decide) (by decide)) _ _,
      plookup_setOptInt_ne "HealthCheckGracePeriod" _
        (memPreNeLit "LoadBalancerNames" "HealthCheckGracePeriod" 1 t (by decide) (by decide)) _ _,
      plookup_setOptStr_ne "VPCZoneIdentifier" _
        (memPreNeLit "LoadBalancerNames" "VPCZoneIdentifier" 1 t (by decide) (by decide)) _ _,
      plookup_setOptInt_ne "DesiredCapacity" _
        (memPreNeLit "LoadBalancerNames" "DesiredCapacity" 1 t (by decide) (by decide)) _ _,
      plookup_build_ne
        (memPreNotShaped "AvailabilityZones" "LoadBalancerNames" 1 t
          (by decide) (by decide) (by decide)) _ _,
      plookup_cons_ne "AutoScalingGroupName" _
        (litNeMemPre "LoadBalancerNames" "AutoScalingGroupName" 1 t (by decide) (by decide)),
      plookup_cons_ne "LaunchConfigurationName" _
        (litNeMemPre "LoadBalancerNames" "LaunchConfigurationName" 2 t (by decide) (by decide)),
      plookup_cons_ne "MinSize" _
        (litNeMemPre "LoadBalancerNames" "MinSize" 1 t (by decide) (by decide)),
      plookup_cons_ne "MaxSize" _
        (litNeMemPre "LoadBalancerNames" "MaxSize" 1 t (by decide) (by decide))]
    rfl
  · intro lc h
    simp only [create_launch_configuration]
    refine Eq.trans (plookup_ite (plookup_pset_ne "InstanceMonitoring.member.Enabled"
      "KeyName" (by decide) _ _)) ?_
    rw [plookup_setList_ne (notMemberShaped_head "SecurityGroups" "KeyName" 1
        (by decide) (by decide)) _ _,
      plookup_setList_ne (notMemberShaped_head "BlockDeviceMappings" "KeyName" 1
        (by decide) (by decide)) _ _,
      plookup_setOptStr_ne "RamdiskId" "KeyName" (by decide) _ _,
      plookup_setOptStr_ne "KernelId" "KeyName" (by decide) _ _]
    refine Eq.trans (plookup_ite (plookup_pset_ne "UserData" "KeyName"
      (by decide) _ _)) ?_
    rw [setOptStr_falsy h,
      plookup_cons_ne "ImageId" "KeyName" (by decide),
      plookup_cons_ne "LaunchConfigurationName" "KeyName" (by decide),
      plookup_cons_ne "InstanceType" "KeyName" (by decide)]
    rfl
  · intro lc h
    simp only [create_launch_configuration]
    rw [if_neg (by simp [h] : ¬truthyOptStr lc.user_data = true)]
    refine Eq.trans (plookup_ite (plookup_pset_ne "InstanceMonitoring.member.Enabled"
      "UserData" (by decide) _ _)) ?_
    rw [plookup_setList_ne (notMemberShaped_head "SecurityGroups" "UserData" 1
        (by decide) (by decide)) _ _,
      plookup_setList_ne (notMemberShaped_head "BlockDeviceMappings" "UserData" 1
        (by decide) (by decide)) _ _,
      plookup_setOptStr_ne "RamdiskId" "UserData" (by decide) _ _,
      plookup_setOptStr_ne "KernelId" "UserData" (by decide) _ _,
      plookup_setOptStr_ne "KeyName" "UserData" (by decide) _ _,
      plookup_cons_ne "ImageId" "UserData" (by decide),
      plookup_cons_ne "LaunchConfigurationName" "UserData" (by decide),
      plookup_cons_ne "InstanceType" "UserData" (by decide)]
    rfl
  · intro lc h
    simp only [create_launch_configuration]
    refine Eq.trans (plookup_ite (plookup_pset_ne "InstanceMonitoring.member.Enabled"
      "KernelId" (by decide) _ _)) ?_
    rw [plookup_setList_ne (notMemberShaped_head "SecurityGroups" "KernelId" 1
        (by decide) (by decide)) _ _,
      plookup_setList_ne (notMemberShaped_head "BlockDeviceMappings" "KernelId" 1
        (by decide) (by decide)) _ _,
      plookup_setOptStr_ne "RamdiskId" "KernelId" (by decide) _ _,
      setOptStr_falsy h]
    refine Eq.trans (plookup_ite (plookup_pset_ne "UserData" "KernelId"
      (by decide) _ _)) ?_
    rw [plookup_setOptStr_ne "KeyName" "KernelId" (by decide) _ _,
      plookup_cons_ne "ImageId" "KernelId" (by decide),
      plookup_cons_ne "LaunchConfigurationName" "KernelId" (by decide),
      plookup_cons_ne "InstanceType" "KernelId" (by decide)]
    rfl
  · intro lc h
    simp only [create_launch_configuration]
    refine Eq.trans (plookup_ite (plookup_pset_ne "InstanceMonitoring.member.Enabled"
      "RamdiskId" (by decide) _ _)) ?_
    rw [plookup_setList_ne (notMemberShaped_head "SecurityGroups" "RamdiskId" 1
        (by decide) (by decide)) _ _,
      plookup_setList_ne (notMemberShaped_head "BlockDeviceMappings" "RamdiskId" 1
        (by decide) (by decide)) _ _,
      setOptStr_falsy h,
      plookup_setOptStr_ne "KernelId" "RamdiskId" (by decide) _ _]
    refine Eq.trans (plookup_ite (plookup_pset_ne "UserData" "RamdiskId"
      (by decide) _ _)) ?_
    rw [plookup_setOptStr_ne "KeyName" "RamdiskId" (by decide) _ _,
      plookup_cons_ne "ImageId" "RamdiskId" (by decide),
      plookup_cons_ne "LaunchConfigurationName" "RamdiskId" (by decide),
      plookup_cons_ne "InstanceType" "RamdiskId" (by decide)]
    rfl
  · intro lc h t
    simp only [create_launch_configuration, h, List.map_nil, setListParams_empty]
    refine Eq.trans (plookup_ite (plookup_pset_ne "InstanceMonitoring.member.Enabled" _
      (memPreNeLit "BlockDeviceMappings" "InstanceMonitoring.member.Enabled" 1 t
        (by decide) (by decide)) _ _)) ?_
    rw [plookup_setList_ne
        (memPreNotShaped "SecurityGroups" "BlockDeviceMappings" 1 t
          (by decide) (by decide) (by decide)) _ _,
      plookup_setOptStr_ne "RamdiskId" _
        (memPreNeLit "BlockDeviceMappings" "RamdiskId" 1 t (by decide) (by decide)) _ _,
      plookup_setOptStr_ne "KernelId" _
        (memPreNeLit "BlockDeviceMappings" "KernelId" 1 t (by decide) (by decide)) _ _]
    refine Eq.trans (plookup_ite (plookup_pset_ne "UserData" _
      (memPreNeLit "BlockDeviceMappings" "UserData" 1 t (by decide) (by decide)) _ _)) ?_
    rw [plookup_setOptStr_ne "KeyName" _
        (memPreNeLit "BlockDeviceMappings" "KeyName" 1 t (by decide) (by decide)) _ _,
      plookup_cons_ne "ImageId" _
        (litNeMemPre "BlockDeviceMappings" "ImageId" 1 t (by decide) (by decide)),
      plookup_cons_ne "LaunchConfigurationName" _
        (litNeMemPre "BlockDeviceMappings" "LaunchConfigurationName" 1 t (by decide) (by decide)),
      plookup_cons_ne "InstanceType" _
        (litNeMemPre "BlockDeviceMappings" "InstanceType" 1 t (by decide) (by decide))]
    rfl
  · intro lc h t
    simp only [create_launch_configuration, h, List.map_nil, setListParams_empty]
    refine Eq.trans (plookup_ite (plookup_pset_ne "InstanceMonitoring.member.Enabled" _
      (memPreNeLit "SecurityGroups" "InstanceMonitoring.member.Enabled" 1 t
        (by decide) (by decide)) _ _)) ?_
    rw [plookup_setList_ne
        (memPreNotShaped "BlockDeviceMappings" "SecurityGroups" 1 t
          (by decide) (by decide) (by decide)) _ _,
      plookup_setOptStr_ne "RamdiskId" _
        (memPreNeLit "SecurityGroups" "RamdiskId" 1 t (by decide) (by decide)) _ _,
      plookup_setOptStr_ne "KernelId" _
        (memPreNeLit "SecurityGroups" "KernelId" 1 t (by decide) (by decide)) _ _]
    refine Eq.trans (plookup_ite (plookup_pset_ne "UserData" _
      (memPreNeLit "SecurityGroups" "UserData" 1 t (by decide) (by decide)) _ _)) ?_
    rw [plookup_setOptStr_ne "KeyName" _
        (memPreNeLit "SecurityGroups" "KeyName" 1 t (by decide) (by decide)) _ _,
      plookup_cons_ne "ImageId" _
        (litNeMemPre "SecurityGroups" "ImageId" 1 t (by decide) (by decide)),
      plookup_cons_ne "LaunchConfigurationName" _
        (litNeMemPre "SecurityGroups" "LaunchConfigurationName" 1 t (by decide) (by decide)),
      plookup_cons_ne "InstanceType" _
        (litNeMemPre "SecurityGroups" "InstanceType" 1 t (by decide) (by decide))]
    rfl
  · intro lc h
    simp only [create_launch_configuration, h, Bool.false_eq_true, if_false]
    rw [plookup_setList_ne (notMemberShaped_head "SecurityGroups"
        "InstanceMonitoring.member.Enabled" 1 (by decide) (by decide)) _ _,
      plookup_setList_ne (notMemberShaped_head "BlockDeviceMappings"
        "InstanceMonitoring.member.Enabled" 1 (by decide) (by decide)) _ _,
      plookup_setOptStr_ne "RamdiskId" "InstanceMonitoring.member.Enabled"
        (by decide) _ _,
      plookup_setOptStr_ne "KernelId" "InstanceMonitoring.member.Enabled"
        (by decide) _ _]
    refine Eq.trans (plookup_ite (plookup_pset_ne "UserData"
      "InstanceMonitoring.member.Enabled" (by decide) _ _)) ?_
    rw [plookup_setOptStr_ne "KeyName" "InstanceMonitoring.member.Enabled" (by decide) _ _,
      plookup_cons_ne "ImageId" "InstanceMonitoring.member.Enabled" (by decide),
      plookup_cons_ne "LaunchConfigurationName" "InstanceMonitoring.member.Enabled" (by decide),
      plookup_cons_ne "InstanceType" "InstanceMonitoring.member.Enabled" (by decide)]
    rfl
  · intro names mr nt h
    simp only [get_all_groups]
    rw [plookup_setList_ne (notMemberShaped_head "AutoScalingGroupNames" "MaxRecords" 1
        (by decide) (by decide)) _ _,
      plookup_setOptStr_ne "NextToken" "MaxRecords" (by decide) _ _,
      setOptInt_falsy h]
    rfl
  · intro names mr nt h
    simp only [get_all_groups]
    rw [plookup_setList_ne (notMemberShaped_head "AutoScalingGroupNames" "NextToken" 1
        (by decide) (by decide)) _ _,
      setOptStr_falsy h,
      plookup_setOptInt_ne "MaxRecords" "NextToken" (by decide) _ _]
    rfl
  · intro names mr nt h t
    simp only [get_all_groups, h, List.map_nil, setListParams_empty]
    rw [plookup_setOptStr_ne "NextToken" _
        (memPreNeLit "AutoScalingGroupNames" "NextToken" 1 t (by decide) (by decide)) _ _,
      plookup_setOptInt_ne "MaxRecords" _
        (memPreNeLit "AutoScalingGroupNames" "MaxRecords" 1 t (by decide) (by decide)) _ _]
    rfl
  · intro names mr nt h t
    simp only [get_all_launch_configurations, h, List.map_nil, setListParams_empty]
    rw [plookup_setOptStr_ne "NextToken" _
        (memPreNeLit "LaunchConfigurationNames" "NextToken" 1 t (by decide) (by decide)) _ _]
    cases mr with
    | none => rfl
    | some n =>
      exact Eq.trans (plookup_pset_ne "MaxRecords" _
        (memPreNeLit "LaunchConfigurationNames" "MaxRecords" 1 t (by decide) (by decide))
        _ _) rfl
  · intro names mr nt h
    simp only [get_all_launch_configurations]
    rw [setOptStr_falsy h,
      plookup_setList_ne (notMemberShaped_head "LaunchConfigurationNames" "NextToken" 1
        (by decide) (by decide)) _ _]
    cases mr with
    | none => rfl
    | some n =>
      exact Eq.trans (plookup_pset_ne "MaxRecords" "NextToken" (by decide) _ _) rfl
  · intro ag aids mr nt h
    simp only [get_all_activities]
    rw [plookup_setList_ne (notMemberShaped_head "ActivityIds" "MaxRecords" 1
        (by decide) (by decide)) _ _,
      plookup_setOptStr_ne "NextToken" "MaxRecords" (by decide) _ _,
      setOptInt_falsy h,
      plookup_cons_ne "AutoScalingGroupName" "MaxRecords" (by decide)]
    rfl
  · intro ag aids mr nt h
    simp only [get_all_activities]
    rw [plookup_setList_ne (notMemberShaped_head "ActivityIds" "NextToken" 1
        (by decide) (by decide)) _ _,
      setOptStr_falsy h,
      plookup_setOptInt_ne "MaxRecords" "NextToken" (by decide) _ _,
      plookup_cons_ne "AutoScalingGroupName" "NextToken" (by decide)]
    rfl
  · intro ag aids mr nt h t
    simp only [get_all_activities, h, List.map_nil, setListParams_empty]
    rw [plookup_setOptStr_ne "NextToken" _
        (memPreNeLit "ActivityIds" "NextToken" 1 t (by decide) (by decide)) _ _,
      plookup_setOptInt_ne "MaxRecords" _
        (memPreNeLit "ActivityIds" "MaxRecords" 1 t (by decide) (by decide)) _ _,
      plookup_cons_ne "AutoScalingGroupName" _
        (litNeMemPre "ActivityIds" "AutoScalingGroupName" 2 t (by decide) (by decide))]
    rfl
  · intro n ag h
    simp only [delete_scheduled_action]
    rw [setOptStr_falsy h,
      plookup_cons_ne "ScheduledActionName" "AutoScalingGroupName" (by decide)]
    rfl
  · intro n ag h
    simp only [delete_policy]
    rw [setOptStr_falsy h,
      plookup_cons_ne "PolicyName" "AutoScalingGroupName" (by decide)]
    rfl
  · intro ids mr nt h t
    simp only [get_all_autoscaling_instances, h, List.map_nil, setListParams_empty]
    rw [plookup_setOptStr_ne "NextToken" _
        (memPreNeLit "InstanceIds" "NextToken" 1 t (by decide) (by decide)) _ _,
      plookup_setOptInt_ne "MaxRecords" _
        (memPreNeLit "InstanceIds" "MaxRecords" 1 t (by decide) (by decide)) _ _]
    rfl
  · intro ids mr nt h
    simp only [get_all_autoscaling_instances]
    rw [plookup_setOptStr_ne "NextToken" "MaxRecords" (by decide) _ _,
      setOptInt_falsy h,
      plookup_setList_ne (notMemberShaped_head "InstanceIds" "MaxRecords" 1
        (by decide) (by decide)) _ _]
    rfl
  · intro ids mr nt h
    simp only [get_all_autoscaling_instances]
    rw [setOptStr_falsy h,
      plookup_setOptInt_ne "MaxRecords" "NextToken" (by decide) _ _,
      plookup_setList_ne (notMemberShaped_head "InstanceIds" "NextToken" 1
        (by decide) (by decide)) _ _]
    rfl
  · intro ag pn mr nt h
    simp only [get_all_policies]
    rw [plookup_setOptStr_ne "NextToken" "AutoScalingGroupName" (by decide) _ _,
      plookup_setOptInt_ne "MaxRecords" "AutoScalingGroupName" (by decide) _ _,
      plookup_setList_ne (notMemberShaped_head "PolicyNames" "AutoScalingGroupName" 1
        (by decide) (by decide)) _ _,
      setOptStr_falsy h]
    rfl
  · intro ag pn mr nt h t
    simp only [get_all_policies, h, List.map_nil, setListParams_empty]
    rw [plookup_setOptStr_ne "NextToken" _
        (memPreNeLit "PolicyNames" "NextToken" 1 t (by decide) (by decide)) _ _,
      plookup_setOptInt_ne "MaxRecords" _
        (memPreNeLit "PolicyNames" "MaxRecords" 1 t (by decide) (by decide)) _ _,
      plookup_setOptStr_ne "AutoScalingGroupName" _
        (memPreNeLit "PolicyNames" "AutoScalingGroupName" 1 t (by decide) (by decide)) _ _]
    rfl
  · intro ag pn mr nt h
    simp only [get_all_policies]
    rw [plookup_setOptStr_ne "NextToken" "MaxRecords" (by decide) _ _,
      setOptInt_falsy h,
      plookup_setList_ne (notMemberShaped_head "PolicyNames" "MaxRecords" 1
        (by decide) (by decide)) _ _,
      plookup_setOptStr_ne "AutoScalingGroupName" "MaxRecords" (by decide) _ _]
    rfl
  · intro ag pn mr nt h
    simp only [get_all_policies]
    rw [setOptStr_falsy h,
      plookup_setOptInt_ne "MaxRecords" "NextToken" (by decide) _ _,
      plookup_setList_ne (notMemberShaped_head "PolicyNames" "NextToken" 1
        (by decide) (by decide)) _ _,
      plookup_setOptStr_ne "AutoScalingGroupName" "NextToken" (by decide) _ _]
    rfl
  · intro ag sp h t
    simp only [suspend_processes, h, List.map_nil, setListParams_empty]
    rw [plookup_cons_ne "AutoScalingGroupName" _
      (litNeMemPre "ScalingProcesses" "AutoScalingGroupName" 1 t (by decide) (by decide))]
    rfl
  · intro ag sp h t
    simp only [resume_processes, h, List.map_nil, setListParams_empty]
    rw [plookup_cons_ne "AutoScalingGroupName" _
      (litNeMemPre "ScalingProcesses" "AutoScalingGroupName" 1 t (by decide) (by decide))]
    rfl
  · intro ag nm tm dc ms mx h
    simp only [create_scheduled_group_action]
    rw [plookup_setOptInt_ne "MaxSize" "DesiredCapacity" (by decide) _ _,
      plookup_setOptInt_ne "MinSize" "DesiredCapacity" (by decide) _ _,
      setOptInt_falsy h,
      plookup_cons_ne "AutoScalingGroupName" "DesiredCapacity" (by decide),
      plookup_cons_ne "ScheduledActionName" "DesiredCapacity" (by decide),
      plookup_cons_ne "Time" "DesiredCapacity" (by decide)]
    rfl
  · intro ag nm tm dc ms mx h
    simp only [create_scheduled_group_action]
    rw [plookup_setOptInt_ne "MaxSize" "MinSize" (by decide) _ _,
      setOptInt_falsy h,
      plookup_setOptInt_ne "DesiredCapacity" "MinSize" (by decide) _ _,
      plookup_cons_ne "AutoScalingGroupName" "MinSize" (by decide),
      plookup_cons_ne "ScheduledActionName" "MinSize" (by decide),
      plookup_cons_ne "Time" "MinSize" (by decide)]
    rfl
  · intro ag nm tm dc ms mx h
    simp only [create_scheduled_group_action]
    rw [setOptInt_falsy h,
      plookup_setOptInt_ne "MinSize" "MaxSize" (by decide) _ _,
      plookup_setOptInt_ne "DesiredCapacity" "MaxSize" (by decide) _ _,
      plookup_cons_ne "AutoScalingGroupName" "MaxSize" (by decide),
      plookup_cons_ne "ScheduledActionName" "MaxSize" (by decide),
      plookup_cons_ne "Time" "MaxSize" (by decide)]
    rfl
  · intro ag st et sa mr nt h
    simp only [get_all_scheduled_actions]
    rw [plookup_setOptStr_ne "NextToken" "AutoScalingGroupName" (by decide) _ _,
      plookup_setOptInt_ne "MaxRecords" "AutoScalingGroupName" (by decide) _ _,
      plookup_setList_ne (notMemberShaped_head "ScheduledActionNames"
        "AutoScalingGroupName" 1 (by decide) (by decide)) _ _,
      setOptStr_falsy h]
    rfl
  · intro ag st et sa mr nt h t
    simp only [get_all_scheduled_actions, h, List.map_nil, setListParams_empty]
    rw [plookup_setOptStr_ne "NextToken" _
        (memPreNeLit "ScheduledActionNames" "NextToken" 1 t (by decide) (by decide)) _ _,
      plookup_setOptInt_ne "MaxRecords" _
        (memPreNeLit "ScheduledActionNames" "MaxRecords" 1 t (by decide) (by decide)) _ _,
      plookup_setOptStr_ne "AutoScalingGroupName" _
        (memPreNeLit "ScheduledActionNames" "AutoScalingGroupName" 1 t
          (by decide) (by decide)) _ _]
    rfl
  · intro ag st et sa mr nt h
    simp only [get_all_scheduled_actions]
    rw [plookup_setOptStr_ne "NextToken" "MaxRecords" (by decide) _ _,
      setOptInt_falsy h,
      plookup_setList_ne (notMemberShaped_head "ScheduledActionNames" "MaxRecords" 1
        (by decide) (by decide)) _ _,
      plookup_setOptStr_ne "AutoScalingGroupName" "MaxRecords" (by decide) _ _]
    rfl
  · intro ag st et sa mr nt h
    simp only [get_all_scheduled_actions]
    rw [setOptStr_falsy h,
      plookup_setOptInt_ne "MaxRecords" "NextToken" (by decide) _ _,
      plookup_setList_ne (notMemberShaped_head "ScheduledActionNames" "NextToken" 1
        (by decide) (by decide)) _ _,
      plookup_setOptStr_ne "AutoScalingGroupName" "NextToken" (by decide) _ _]
    rfl
  · intro ag m h t
    simp only [disable_metrics_collection, h, List.map_nil, setListParams_empty]
    rw [plookup_cons_ne "AutoScalingGroupName" _
      (litNeMemPre "Metrics" "AutoScalingGroupName" 1 t (by decide) (by decide))]
    rfl
  · intro ag gr m h t
    simp only [enable_metrics_collection, h, List.map_nil, setListParams_empty]
    rw [plookup_cons_ne "AutoScalingGroupName" _
        (litNeMemPre "Metrics" "AutoScalingGroupName" 1 t (by decide) (by decide)),
      plookup_cons_ne "Granularity" _
        (litNeMemPre "Metrics" "Granularity" 1 t (by decide) (by decide))]
    rfl
  · intro pn ag hc h
    simp only [execute_policy]
    refine Eq.trans (plookup_ite (plookup_pset_ne "HonorCooldown"
      "AutoScalingGroupName" (by decide) _ _)) ?_
    rw [setOptStr_falsy h,
      plookup_cons_ne "PolicyName" "AutoScalingGroupName" (by decide)]
    rfl
  · intro pn ag hc h
    simp only [execute_policy, h, Bool.false_eq_true, if_false]
    rw [plookup_setOptStr_ne "AutoScalingGroupName" "HonorCooldown" (by decide) _ _,
      plookup_cons_ne "PolicyName" "HonorCooldown" (by decide)]
    rfl

/-- Counterexample to C1 as stated: falsy optional parameter values
that nevertheless appear in the encoded mapping — a zero `Cooldown`
(guarded by `is not None`), a `False` grace-period flag (always sent as
`'false'`), and a zero `MaxRecords` in
`get_all_launch_configurations`. -/
theorem spec_c1_counterexample :
    truthyOptInt (some 0) = false
    ∧ plookup (create_scaling_policy
        { adjustment_type := "ChangeInCapacity", as_name := "grp", name := "pol",
          scaling_adjustment := 1, cooldown := some 0 }).params "Cooldown"
      = some (PVal.i 0)
    ∧ plookup (set_instance_health "i-123" "Healthy" false).params
        "ShouldRespectGracePeriod" = some (PVal.s "false")
    ∧ plookup (get_all_launch_configurations [] (some 0) none).params "MaxRecords"
      = some (PVal.i 0) := by
  refine ⟨rfl, ?_, ?_, ?_⟩ <;> decide

/-- Concrete auto scaling group with every optional field falsy. -/
def g0 : AutoScalingGroup :=
  { name := "grp", launch_config_name := "lc", min_size := 1, max_size := 2,
    availability_zones := ["us-east-1b"], desired_capacity := none,
    vpc_zone_identifier := none, health_check_period := none,
    health_check_type := none, default_cooldown := none, placement_group := none,
    load_balancers := [] }

/-- Concrete launch configuration with every optional field falsy. -/
def lcF : LaunchConfiguration :=
  { image_id := "ami-1", name := "lc-1", instance_type := "m1.small",
    key_name := none, user_data := none, kernel_id := none, ramdisk_id := none,
    block_device_mappings := [], security_groups := [],
    instance_monitoring := false }

/-- Concrete timestamp argument. -/
def dt0 : Datetime := { isoformat := "2011-01-01T00:00:00" }

/-- Witness for the amended C1: every clause applied at a concrete
falsy input. -/
theorem spec_c1_falsy_optionals_omitted_witness :
    plookup (create_auto_scaling_group g0).params "DesiredCapacity" = none
    ∧ plookup (create_auto_scaling_group g0).params "VPCZoneIdentifier" = none
    ∧ plookup (create_auto_scaling_group g0).params "HealthCheckGracePeriod" = none
    ∧ plookup (create_auto_scaling_group g0).params "HealthCheckType" = none
    ∧ plookup (create_auto_scaling_group g0).params "DefaultCooldown" = none
    ∧ plookup (create_auto_scaling_group g0).params "PlacementGroup" = none
    ∧ plookup (create_auto_scaling_group g0).params
        ("LoadBalancerNames" ++ ".member." ++ "1") = none
    ∧ plookup (create_launch_configuration lcF).params "KeyName" = none
    ∧ plookup (create_launch_configuration lcF).params "UserData" = none
    ∧ plookup (create_launch_configuration lcF).params "KernelId" = none
    ∧ plookup (create_launch_configuration lcF).params "RamdiskId" = none
    ∧ plookup (create_launch_configuration lcF).params
        ("BlockDeviceMappings" ++ ".member." ++ "1") = none
    ∧ plookup (create_launch_configuration lcF).params
        ("SecurityGroups" ++ ".member." ++ "1") = none
    ∧ plookup (create_launch_configuration lcF).params
        "InstanceMonitoring.member.Enabled" = none
    ∧ plookup (get_all_groups [] none none).params "MaxRecords" = none
    ∧ plookup (get_all_groups [] none none).params "NextToken" = none
    ∧ plookup (get_all_groups [] none none).params
        ("AutoScalingGroupNames" ++ ".member." ++ "1") = none
    ∧ plookup (get_all_launch_configurations [] none none).params
        ("LaunchConfigurationNames" ++ ".member." ++ "1") = none
    ∧ plookup (get_all_launch_configurations [] none none).params "NextToken" = none
    ∧ plookup (get_all_activities (GroupOrName.nm "grp") [] none none).params
        "MaxRecords" = none
    ∧ plookup (get_all_activities (GroupOrName.nm "grp") [] none none).params
        "NextToken" = none
    ∧ plookup (get_all_activities (GroupOrName.nm "grp") [] none none).params
        ("ActivityIds" ++ ".member." ++ "1") = none
    ∧ plookup (delete_scheduled_action "act" none).params "AutoScalingGroupName" = none
    ∧ plookup (delete_policy "pol" none).params "AutoScalingGroupName" = none
    ∧ plookup (get_all_autoscaling_instances [] none none).params
        ("InstanceIds" ++ ".member." ++ "1") = none
    ∧ plookup (get_all_autoscaling_instances [] none none).params "MaxRecords" = none
    ∧ plookup (get_all_autoscaling_instances [] none none).params "NextToken" = none
    ∧ plookup (get_all_policies none [] none none).params "AutoScalingGroupName" = none
    ∧ plookup (get_all_policies none [] none none).params
        ("PolicyNames" ++ ".member." ++ "1") = none
    ∧ plookup (get_all_policies none [] none none).params "MaxRecords" = none
    ∧ plookup (get_all_policies none [] none none).params "NextToken" = none
    ∧ plookup (suspend_processes "grp" []).params
        ("ScalingProcesses" ++ ".member." ++ "1") = none
    ∧ plookup (resume_processes "grp" []).params
        ("ScalingProcesses" ++ ".member." ++ "1") = none
    ∧ plookup (create_scheduled_group_action "grp" "act" dt0 none none none).params
        "DesiredCapacity" = none
    ∧ plookup (create_scheduled_group_action "grp" "act" dt0 none none none).params
        "MinSize" = none
    ∧ plookup (create_scheduled_group_action "grp" "act" dt0 none none none).params
        "MaxSize" = none
    ∧ plookup (get_all_scheduled_actions none none none [] none none).params
        "AutoScalingGroupName" = none
    ∧ plookup (get_all_scheduled_actions none none none [] none none).params
        ("ScheduledActionNames" ++ ".member." ++ "1") = none
    ∧ plookup (get_all_scheduled_actions none none none [] none none).params
        "MaxRecords" = none
    ∧ plookup (get_all_scheduled_actions none none none [] none none).params
        "NextToken" = none
    ∧ plookup (disable_metrics_collection "grp" []).params
        ("Metrics" ++ ".member." ++ "1") = none
    ∧ plookup (enable_metrics_collection "grp" "1Minute" []).params
        ("Metrics" ++ ".member." ++ "1") = none
    ∧ plookup (execute_policy "pol" none false).params "AutoScalingGroupName" = none
    ∧ plookup (execute_policy "pol" none false).params "HonorCooldown" = none := by
  obtain ⟨c1, c2, c3, c4, c5, c6, c7, c8, c9, c10, c11, c12, c13, c14, c15, c16, c17,
    c18, c19, c20, c21, c22, c23, c24, c25, c26, c27, c28, c29, c30, c31, c32, c33,
    c34, c35, c36, c37, c38, c39, c40, c41, c42, c43, c44⟩ :=
    spec_c1_falsy_optionals_omitted
  exact ⟨c1 g0 rfl, c2 g0 rfl, c3 g0 rfl, c4 g0 rfl, c5 g0 rfl, c6 g0 rfl,
    c7 g0 rfl "1", c8 lcF rfl, c9 lcF rfl, c10 lcF rfl, c11 lcF rfl, c12 lcF rfl "1",
    c13 lcF rfl "1", c14 lcF rfl, c15 [] none none rfl, c16 [] none none rfl,
    c17 [] none none rfl "1", c18 [] none none rfl "1", c19 [] none none rfl,
    c20 (GroupOrName.nm "grp") [] none none rfl,
    c21 (GroupOrName.nm "grp") [] none none rfl,
    c22 (GroupOrName.nm "grp") [] none none rfl "1",
    c23 "act" none rfl, c24 "pol" none rfl, c25 [] none none rfl "1",
    c26 [] none none rfl, c27 [] none none rfl, c28 none [] none none rfl,
    c29 none [] none none rfl "1", c30 none [] none none rfl,
    c31 none [] none none rfl, c32 "grp" [] rfl "1", c33 "grp" [] rfl "1",
    c34 "grp" "act" dt0 none none none rfl, c35 "grp" "act" dt0 none none none rfl,
    c36 "grp" "act" dt0 none none none rfl, c37 none none none [] none none rfl,
    c38 none none none [] none none rfl "1", c39 none none none [] none none rfl,
    c40 none none none [] none none rfl, c41 "grp" [] rfl "1",
    c42 "grp" "1Minute" [] rfl "1", c43 "pol" none false rfl, c44 "pol" none false rfl⟩
